import Mathlib

/-!
Shallow embedding of the website-provisioning service of this repository:
the HTTP route handlers and `DatabaseStorage` (server routes/storage file)
and the `FileManager` (server file-manager file), over the tables declared
in `shared/schema.ts`.

Modelling choices:
* Filesystem paths are lists of components; `path.join` normalisation of
  `""`, `"."` and `".."` follows Node's semantics for absolute bases.
* Database rows are kept in insertion order; `createdAt` timestamps are a
  strictly increasing counter `tick`, so `orderBy(desc(createdAt))` is the
  reverse of insertion order.
* External archive extraction (`unzip -o`) is an oracle `Env.unzip` from
  the resolved archive path to either the extracted file set or an error
  message; a failed extraction leaves the destination directory as the
  preceding `clearWebsiteDir` left it.
* `fs.mkdir` failure in the create-website handler is an explicit oracle
  flag `mkdirFails` (the code path where `createUserWebsiteDir` throws).
-/

namespace PrimeWebs

/-- Absolute filesystem path, as a list of components from the root. -/
abbrev Path := List String

/-- Split a path string at `'/'` separators (structural recursion on the
character list, so it evaluates in the kernel). -/
def splitChars : List Char → List String
  | [] => [""]
  | c :: cs =>
    let rest := splitChars cs
    if c = '/' then "" :: rest
    else
      match rest with
      | [] => [String.mk [c]]
      | s :: t => String.mk (c :: s.toList) :: t

/-- Components of a path string. -/
def splitPath (s : String) : List String := splitChars s.toList

/-- One step of Node-style path normalisation over an absolute base:
empty and `"."` components are dropped, `".."` pops the last component
(at the root it is dropped). -/
def normStep (acc : List String) (c : String) : List String :=
  if c = "" ∨ c = "." then acc
  else if c = ".." then acc.dropLast
  else acc ++ [c]

/-- Node-style normalisation of an absolute component list. -/
def normalizeComponents (cs : List String) : List String := cs.foldl normStep []

/-- Render a component list back to an absolute path string. -/
def renderPath (p : Path) : String := "/" ++ String.intercalate "/" p

/-- `True` iff `needle` occurs as a contiguous substring of `hay`
(character-list version). -/
def containsSubAux : List Char → List Char → Bool
  | [], needle => needle.isEmpty
  | c :: t, needle => needle.isPrefixOf (c :: t) || containsSubAux t needle

/-- `True` iff `needle` occurs as a contiguous substring of `hay`. -/
def containsSub (hay needle : String) : Bool := containsSubAux hay.toList needle.toList

/-! ### FileManager path derivations (fileManager source lines 5–27) -/

/-- `this.scriptsDir = path.join(process.cwd(), 'allscripts')`. -/
def scriptsDirPath (cwd : Path) : Path := cwd ++ ["allscripts"]

/-- `this.baseDir = path.join(process.cwd(), 'user_websites')`. -/
def baseDirPath (cwd : Path) : Path := cwd ++ ["user_websites"]

/-- `getUserWebsiteDir`: `path.join(this.baseDir, userId, subdomain)`. -/
def getUserWebsiteDir (cwd : Path) (userId subdomain : String) : Path :=
  normalizeComponents (baseDirPath cwd ++ [userId, subdomain])

/-- The path `path.join(this.scriptsDir, scriptName)` computed by both
`scriptExists` and `extractScript`: the raw request-supplied `scriptName`
is joined to the store path and the result normalised. -/
def resolveScriptPath (cwd : Path) (scriptName : String) : Path :=
  normalizeComponents (scriptsDirPath cwd ++ splitPath scriptName)

/-- The shell command built by `extractScript` (fileManager line 94):
`cd "<websiteDir>" && unzip -o "<scriptPath>"`. -/
def extractCommand (cwd : Path) (userId subdomain scriptName : String) : String :=
  "cd \"" ++ renderPath (getUserWebsiteDir cwd userId subdomain) ++
    "\" && unzip -o \"" ++ renderPath (resolveScriptPath cwd scriptName) ++ "\""

/-! ### Data model (`shared/schema.ts`) -/

/-- A row of the `websites` table (timestamp columns are not modelled;
no claim refers to them). -/
structure Website where
  id : String
  userId : String
  name : String
  subdomain : String
  description : Option String
  currentScript : Option String
  isActive : Bool
deriving Repr, DecidableEq

/-- A partial update of a website row, as passed to
`DatabaseStorage.updateWebsite` (`Partial<InsertWebsite>`): `none` means
the field is absent from the update object. -/
structure WebsiteUpdate where
  userId : Option String := none
  subdomain : Option String := none
  name : Option String := none
  description : Option (Option String) := none
  currentScript : Option (Option String) := none
  isActive : Option Bool := none
deriving Repr, DecidableEq

/-- The structured `details` payload of a `website_logs` row. -/
inductive LogDetails where
  | created (name subdomain : String)
  | updated (u : WebsiteUpdate)
  | scriptChanged (oldScript : Option String) (newScript : String)
deriving Repr, DecidableEq

/-- A row of the `website_logs` table; `createdAt` is the tick at which
the row was inserted. -/
structure WebsiteLog where
  websiteId : String
  action : String
  details : LogDetails
  createdAt : Nat
deriving Repr, DecidableEq

/-- A row of the `script_templates` table. -/
structure ScriptTemplate where
  id : String
  name : String
  displayName : String
  description : Option String
  version : String
  fileName : String
  isActive : Bool
deriving Repr, DecidableEq

/-! ### Filesystem model -/

/-- The filesystem as the FileManager touches it: `cwd` is
`process.cwd()`; `siteDirs` maps each existing website directory, keyed
by `(userId, subdomain)`, to the set of entries inside it; `scriptFiles`
is the set of existing files reachable through the scripts-directory
join (absolute resolved paths). -/
structure FS where
  cwd : Path
  siteDirs : List ((String × String) × List String)
  scriptFiles : List Path
deriving Repr, DecidableEq

/-- Contents of a website directory, `none` if the directory is absent. -/
def FS.siteFiles (fs : FS) (userId subdomain : String) : Option (List String) :=
  (fs.siteDirs.find? (fun e => e.1 == (userId, subdomain))).map (·.2)

/-- Replace the contents of a website directory (no-op when absent). -/
def FS.setSiteFiles (fs : FS) (userId subdomain : String) (files : List String) : FS :=
  { fs with siteDirs :=
      fs.siteDirs.map (fun e => if e.1 == (userId, subdomain) then (e.1, files) else e) }

/-! ### FileManager operations (fileManager source lines 30–135) -/

/-- `createUserWebsiteDir`: `fs.mkdir(websiteDir, {recursive: true})` —
creates the directory empty if absent, no-op if present. -/
def FileManager.createUserWebsiteDir (fs : FS) (userId subdomain : String) : FS :=
  if (fs.siteDirs.find? (fun e => e.1 == (userId, subdomain))).isSome then fs
  else { fs with siteDirs := ((userId, subdomain), []) :: fs.siteDirs }

/-- `clearWebsiteDir`: removes every immediate child of the directory,
keeping the directory itself; tolerates a missing directory (errors are
swallowed and logged). -/
def FileManager.clearWebsiteDir (fs : FS) (userId subdomain : String) : FS :=
  fs.setSiteFiles userId subdomain []

/-- `deleteWebsiteDir`: `fs.rm(websiteDir, {recursive, force})`, errors
swallowed. -/
def FileManager.deleteWebsiteDir (fs : FS) (userId subdomain : String) : FS :=
  { fs with siteDirs := fs.siteDirs.filter (fun e => !(e.1 == (userId, subdomain))) }

/-- `scriptExists`: `fs.access(path.join(this.scriptsDir, scriptName))`. -/
def FileManager.scriptExists (fs : FS) (scriptName : String) : Bool :=
  fs.scriptFiles.contains (resolveScriptPath fs.cwd scriptName)

/-- `deleteScript`: `fs.unlink(path.join(this.scriptsDir, scriptName))`,
errors (including absence) swallowed. -/
def FileManager.deleteScript (fs : FS) (scriptName : String) : FS :=
  { fs with scriptFiles :=
      fs.scriptFiles.filter (fun p => !(p == resolveScriptPath fs.cwd scriptName)) }

/-- `uploadScript`: `fs.writeFile(path.join(this.scriptsDir, fileName))`,
overwriting if present. -/
def FileManager.uploadScript (fs : FS) (fileName : String) : FS :=
  let p := resolveScriptPath fs.cwd fileName
  if fs.scriptFiles.contains p then fs else { fs with scriptFiles := p :: fs.scriptFiles }

/-- Outcome oracle for `unzip -o` on a given archive path: the extracted
file set, or the error message of a failing extraction. -/
structure Env where
  unzip : Path → Except String (List String)

/-- `extractScript`: ensure the website directory exists, clear it, then
run `unzip -o` (the `extractCommand`).  On failure the thrown message is
`"Failed to extract script: " ++ e` and the directory is left as the
clear left it. -/
def FileManager.extractScript (env : Env) (fs : FS) (userId subdomain scriptName : String) :
    FS × Except String Unit :=
  let fs1 := FileManager.createUserWebsiteDir fs userId subdomain
  let fs2 := FileManager.clearWebsiteDir fs1 userId subdomain
  match env.unzip (resolveScriptPath fs.cwd scriptName) with
  | .ok files => (fs2.setSiteFiles userId subdomain files, .ok ())
  | .error e => (fs2, .error ("Failed to extract script: " ++ e))

/-! ### Application state and DatabaseStorage (routes/storage source) -/

/-- The state the handlers act on: the three database tables touched by
the claims, the filesystem, and the counter `tick` used both for
generated row ids and for `createdAt` timestamps. -/
structure AppState where
  websites : List Website
  logs : List WebsiteLog
  templates : List ScriptTemplate
  fs : FS
  tick : Nat
deriving Repr, DecidableEq

/-- Deterministic stand-in for `gen_random_uuid()`. -/
def genId (n : Nat) : String := "id-" ++ toString n

/-- `getUserWebsites`: rows with the given owner, newest first. -/
def DatabaseStorage.getUserWebsites (s : AppState) (userId : String) : List Website :=
  (s.websites.filter (fun w => w.userId == userId)).reverse

/-- `getWebsite`: lookup by primary key. -/
def DatabaseStorage.getWebsite (s : AppState) (id : String) : Option Website :=
  s.websites.find? (fun w => w.id == id)

/-- `getWebsiteBySubdomain`: lookup by the unique subdomain column. -/
def DatabaseStorage.getWebsiteBySubdomain (s : AppState) (subdomain : String) : Option Website :=
  s.websites.find? (fun w => w.subdomain == subdomain)

/-- Apply a partial update object to a row (`.set({...updates})`). -/
def applyUpdate (w : Website) (u : WebsiteUpdate) : Website :=
  { w with
    userId := u.userId.getD w.userId
    subdomain := u.subdomain.getD w.subdomain
    name := u.name.getD w.name
    description := u.description.getD w.description
    currentScript := u.currentScript.getD w.currentScript
    isActive := u.isActive.getD w.isActive }

/-- `updateWebsite`: update the row with the given id, returning the
updated row (`.returning()`), `none` when no row matched. -/
def DatabaseStorage.updateWebsite (s : AppState) (id : String) (u : WebsiteUpdate) :
    Option Website × AppState :=
  match s.websites.find? (fun w => w.id == id) with
  | none => (none, s)
  | some w =>
    (some (applyUpdate w u),
     { s with websites := s.websites.map (fun x => if x.id == id then applyUpdate x u else x) })

/-- `deleteWebsite`: delete the row; the `onDelete: "cascade"` foreign
key on `website_logs.websiteId` removes the website's log rows. -/
def DatabaseStorage.deleteWebsite (s : AppState) (id : String) : AppState :=
  { s with
    websites := s.websites.filter (fun w => !(w.id == id))
    logs := s.logs.filter (fun l => !(l.websiteId == id)) }

/-- `getWebsiteLogs`: the website's log rows ordered by `createdAt`
descending — the reverse of insertion order. -/
def DatabaseStorage.getWebsiteLogs (s : AppState) (websiteId : String) : List WebsiteLog :=
  (s.logs.filter (fun l => l.websiteId == websiteId)).reverse

/-- `createWebsiteLog`: append one row, stamped with the current tick. -/
def DatabaseStorage.createWebsiteLog (s : AppState) (websiteId action : String)
    (details : LogDetails) : AppState :=
  { s with
    logs := s.logs ++ [{ websiteId := websiteId, action := action,
                         details := details, createdAt := s.tick }]
    tick := s.tick + 1 }

/-- `getScriptTemplate`: lookup by primary key. -/
def DatabaseStorage.getScriptTemplate (s : AppState) (id : String) : Option ScriptTemplate :=
  s.templates.find? (fun t => t.id == id)

/-- `deleteScriptTemplate`: delete the row with the given id. -/
def DatabaseStorage.deleteScriptTemplate (s : AppState) (id : String) : AppState :=
  { s with templates := s.templates.filter (fun t => !(t.id == id)) }

/-- `getWebsiteUrl` (fileManager lines 170–174). -/
def getWebsiteUrl (subdomain : String) : String :=
  "https://" ++ subdomain ++ ".yoursite.com"

/-! ### Route handlers (routes source) -/

/-- HTTP response, as far as the claims inspect it. -/
inductive Resp where
  | err (status : Nat) (message : String)
  | createdWebsite (w : Website)
  | okWebsite (w : Website)
  | okScriptChange (message : String) (w : Option Website) (url : String)
  | okLogs (logs : List WebsiteLog)
  | okMessage (message : String)
deriving Repr, DecidableEq

/-- HTTP status code of a response. -/
def Resp.status : Resp → Nat
  | .err n _ => n
  | .createdWebsite _ => 201
  | .okWebsite _ => 200
  | .okScriptChange _ _ _ => 200
  | .okLogs _ => 200
  | .okMessage _ => 200

/-- Side effects a handler performs, in order. -/
inductive Ev where
  | createDir (userId subdomain : String)
  | clearDir (userId subdomain : String)
  | unzipRun (userId subdomain scriptName : String)
  | fsDeleteDir (userId subdomain : String)
  | fsDeleteScript (fileName : String)
  | dbInsertWebsite (w : Website)
  | dbUpdateWebsite (id : String)
  | dbDeleteWebsite (id : String)
  | dbInsertLog (websiteId action : String)
  | dbDeleteTemplate (id : String)
deriving Repr, DecidableEq

/-- Body of `POST /api/websites` (the `userId` field of the parsed data
is overwritten server-side with the session user, so it is not part of
the body model). -/
structure CreateBody where
  name : String
  subdomain : String
  description : Option String := none
  currentScript : Option String := none
  isActive : Option Bool := none
deriving Repr, DecidableEq

/-- The subdomain regex `^[a-z0-9-]+$` together with zod's `min(1)`. -/
def subdomainOk (s : String) : Bool :=
  !(s == "") && s.toList.all (fun c => c.isLower || c.isDigit || c == '-')

/-- `POST /api/websites` (routes lines 109–157): quota check, zod
validation, subdomain-conflict check, create directory, persist row,
append audit entry.  `mkdirFails` is the oracle for
`fileManager.createUserWebsiteDir` throwing, which the catch turns into
a 500 before any database write. -/
def postWebsites (s : AppState) (callerId : String) (body : CreateBody)
    (mkdirFails : Bool) : Resp × AppState × List Ev :=
  if 0 < (DatabaseStorage.getUserWebsites s callerId).length then
    (.err 400 "You can only create one website. Please delete your existing website first.",
     s, [])
  else if body.name == "" then (.err 400 "Validation error", s, [])
  else if !subdomainOk body.subdomain then (.err 400 "Validation error", s, [])
  else if (DatabaseStorage.getWebsiteBySubdomain s body.subdomain).isSome then
    (.err 400 "Subdomain already taken", s, [])
  else if mkdirFails then (.err 500 "Failed to create website", s, [])
  else
    let s1 := { s with fs := FileManager.createUserWebsiteDir s.fs callerId body.subdomain }
    let w : Website :=
      { id := genId s1.tick, userId := callerId, name := body.name,
        subdomain := body.subdomain, description := body.description,
        currentScript := body.currentScript, isActive := body.isActive.getD true }
    let s2 := { s1 with websites := s1.websites ++ [w], tick := s1.tick + 1 }
    let s3 := DatabaseStorage.createWebsiteLog s2 w.id "created"
                (.created w.name w.subdomain)
    (.createdWebsite w, s3,
     [.createDir callerId body.subdomain, .dbInsertWebsite w, .dbInsertLog w.id "created"])

/-- `PATCH /api/websites/:id` (routes lines 160–191): existence and
ownership checks, then `delete updateData.userId` and
`delete updateData.subdomain` before the update, then an `"updated"`
audit entry. -/
def patchWebsite (s : AppState) (callerId websiteId : String) (body : WebsiteUpdate) :
    Resp × AppState × List Ev :=
  match DatabaseStorage.getWebsite s websiteId with
  | none => (.err 404 "Website not found", s, [])
  | some w =>
    if !(w.userId == callerId) then (.err 403 "Access denied", s, [])
    else
      let updateData := { body with userId := none, subdomain := none }
      let r := DatabaseStorage.updateWebsite s websiteId updateData
      let s2 := DatabaseStorage.createWebsiteLog r.2 w.id "updated" (.updated updateData)
      (.okWebsite ((r.1).getD w), s2,
       [.dbUpdateWebsite websiteId, .dbInsertLog w.id "updated"])

/-- `DELETE /api/websites/:id` (routes lines 194–218): existence and
ownership checks, best-effort subtree removal, then the row delete
(cascading the audit entries).  No audit entry is written. -/
def deleteWebsiteRoute (s : AppState) (callerId websiteId : String) :
    Resp × AppState × List Ev :=
  match DatabaseStorage.getWebsite s websiteId with
  | none => (.err 404 "Website not found", s, [])
  | some w =>
    if !(w.userId == callerId) then (.err 403 "Access denied", s, [])
    else
      let s1 := { s with fs := FileManager.deleteWebsiteDir s.fs callerId w.subdomain }
      let s2 := DatabaseStorage.deleteWebsite s1 websiteId
      (.okMessage "Website deleted successfully", s2,
       [.fsDeleteDir callerId w.subdomain, .dbDeleteWebsite websiteId])

/-- `POST /api/websites/:id/change-script` (routes lines 221–272):
script-name presence, website existence, ownership, template existence,
then clear+extract, `currentScript` update, and a `"script_changed"`
audit entry.  A thrown extraction error reaches the catch, which
responds `500 {"message": "Failed to change script"}` (the thrown
message is only `console.error`-logged). -/
def postChangeScript (env : Env) (s : AppState) (callerId websiteId : String)
    (scriptName : Option String) : Resp × AppState × List Ev :=
  match scriptName with
  | none => (.err 400 "Script name is required", s, [])
  | some name =>
    if name == "" then (.err 400 "Script name is required", s, [])
    else
      match DatabaseStorage.getWebsite s websiteId with
      | none => (.err 404 "Website not found", s, [])
      | some w =>
        if !(w.userId == callerId) then (.err 403 "Access denied", s, [])
        else if !(FileManager.scriptExists s.fs name) then
          (.err 404 "Script not found", s, [])
        else
          let ex := FileManager.extractScript env s.fs w.userId w.subdomain name
          match ex.2 with
          | .error _ =>
            (.err 500 "Failed to change script", { s with fs := ex.1 },
             [.createDir w.userId w.subdomain, .clearDir w.userId w.subdomain,
              .unzipRun w.userId w.subdomain name])
          | .ok _ =>
            let s1 := { s with fs := ex.1 }
            let r := DatabaseStorage.updateWebsite s1 websiteId
                       { currentScript := some (some name) }
            let s3 := DatabaseStorage.createWebsiteLog r.2 w.id "script_changed"
                        (.scriptChanged w.currentScript name)
            (.okScriptChange "Script changed successfully" r.1 (getWebsiteUrl w.subdomain),
             s3,
             [.createDir w.userId w.subdomain, .clearDir w.userId w.subdomain,
              .unzipRun w.userId w.subdomain name, .dbUpdateWebsite websiteId,
              .dbInsertLog w.id "script_changed"])

/-- `GET /api/websites/:id/logs` (routes lines 297–316). -/
def getLogsRoute (s : AppState) (callerId websiteId : String) : Resp :=
  match DatabaseStorage.getWebsite s websiteId with
  | none => .err 404 "Website not found"
  | some w =>
    if !(w.userId == callerId) then .err 403 "Access denied"
    else .okLogs (DatabaseStorage.getWebsiteLogs s websiteId)

/-- `DELETE /api/scripts/:id` (routes lines 380–399): only existence of
the template row is checked; the authenticated caller is never
consulted.  Removes the backing archive file, then the row. -/
def deleteScriptRoute (s : AppState) (templateId : String) : Resp × AppState × List Ev :=
  match DatabaseStorage.getScriptTemplate s templateId with
  | none => (.err 404 "Script template not found", s, [])
  | some t =>
    let s1 := { s with fs := FileManager.deleteScript s.fs t.fileName }
    let s2 := DatabaseStorage.deleteScriptTemplate s1 templateId
    (.okMessage "Script template deleted successfully", s2,
     [.fsDeleteScript t.fileName, .dbDeleteTemplate templateId])

/-! ### Operations, for stating invariants over arbitrary request
sequences -/

/-- One authenticated request against the mutating website/template
routes. -/
inductive Op where
  | create (callerId : String) (body : CreateBody) (mkdirFails : Bool)
  | update (callerId websiteId : String) (body : WebsiteUpdate)
  | deleteSite (callerId websiteId : String)
  | changeScript (callerId websiteId : String) (scriptName : Option String)
  | deleteTemplate (callerId templateId : String)
deriving Repr

/-- Dispatch one request. -/
def runOp (env : Env) (s : AppState) : Op → Resp × AppState × List Ev
  | .create callerId body mkdirFails => postWebsites s callerId body mkdirFails
  | .update callerId websiteId body => patchWebsite s callerId websiteId body
  | .deleteSite callerId websiteId => deleteWebsiteRoute s callerId websiteId
  | .changeScript callerId websiteId name => postChangeScript env s callerId websiteId name
  | .deleteTemplate _ templateId => deleteScriptRoute s templateId

/-- Run a request sequence, threading the state. -/
def runList (env : Env) (s : AppState) : List Op → AppState
  | [] => s
  | op :: rest => runList env (runOp env s op).2.1 rest

/-- The operations the audit-log claim calls mutating: create, update,
script change. -/
def Op.isMut : Op → Bool
  | .create _ _ _ => true
  | .update _ _ _ => true
  | .changeScript _ _ _ => true
  | _ => false

/-- The id of the website a mutating operation logs against: for a
create, the id the insert will generate from the current tick. -/
def Op.targetId (op : Op) (s : AppState) : Option String :=
  match op with
  | .create _ _ _ => some (genId s.tick)
  | .update _ websiteId _ => some websiteId
  | .changeScript _ websiteId _ => some websiteId
  | _ => none

/-! ### Concrete fixtures used by witnesses and counterexamples -/

/-- A website owned by user `u1`. -/
def exWebsite : Website :=
  { id := "w1", userId := "u1", name := "Alice Site", subdomain := "alice-site",
    description := none, currentScript := none, isActive := true }

/-- A filesystem with that website's directory and one stored archive. -/
def exFS : FS :=
  { cwd := [], siteDirs := [(("u1", "alice-site"), ["old.html"])],
    scriptFiles := [["allscripts", "basic.zip"]] }

/-- A template row backed by `basic.zip`. -/
def exTemplate : ScriptTemplate :=
  { id := "t1", name := "basic", displayName := "Basic", description := none,
    version := "1.0.0", fileName := "basic.zip", isActive := true }

/-- A state with one website, one template, no logs. -/
def exState : AppState :=
  { websites := [exWebsite], logs := [], templates := [exTemplate], fs := exFS, tick := 5 }

/-- Extraction oracle that succeeds with one file. -/
def exEnvOk : Env := { unzip := fun _ => .ok ["index.html"] }

/-- Extraction oracle that fails with message `"boom"`. -/
def exEnvBad : Env := { unzip := fun _ => .error "boom" }

/-- Number of websites a user owns in a state. -/
def ownedCount (s : AppState) (u : String) : Nat :=
  (s.websites.filter (fun w => w.userId == u)).length

/-- The one-website-per-user invariant. -/
def quotaInv (s : AppState) : Prop := ∀ u, ownedCount s u ≤ 1

/-- Timestamps in the log table are strictly increasing and below the
current tick — true of every reachable state. -/
def logsWF (s : AppState) : Prop :=
  s.logs.Pairwise (fun a b => a.createdAt < b.createdAt) ∧
  ∀ l ∈ s.logs, l.createdAt < s.tick

/-- Every operation in the list is a mutating one targeting `wid` and
succeeds when run at its point in the sequence. -/
def allMutSucceed (env : Env) (wid : String) : AppState → List Op → Prop
  | _, [] => True
  | s, op :: rest =>
    op.isMut = true ∧ Op.targetId op s = some wid ∧ (runOp env s op).1.status < 400 ∧
    allMutSucceed env wid (runOp env s op).2.1 rest

/-! ### Helper lemmas about the filesystem model -/

/-- Setting the contents of an entry that is present yields an entry
with exactly those contents. -/
theorem find?_map_setEntry (l : List ((String × String) × List String))
    (k : String × String) (files : List String)
    (h : (l.find? (fun e => e.1 == k)).isSome = true) :
    (l.map (fun e => if e.1 == k then (e.1, files) else e)).find? (fun e => e.1 == k)
      = some (k, files) := by
  induction l with
  | nil => simp at h
  | cons a t ih =>
    by_cases ha : a.1 = k
    · subst ha
      simp
    · have hb' : (a.1 == k) = false := by simp [ha]
      have hh : (List.find? (fun e => e.1 == k) t).isSome = true := by
        rw [List.find?_cons_of_neg] at h
        · exact h
        · simp [hb']
      rw [List.map_cons, if_neg (show ¬ ((a.1 == k) = true) by simp [hb'])]
      rw [List.find?_cons_of_neg]
      · exact ih hh
      · simp [hb']

/-- `setSiteFiles` on a present directory stores exactly the given
contents. -/
theorem FS.siteFiles_setSiteFiles (fs : FS) (uid sd : String) (files : List String)
    (h : (fs.siteFiles uid sd).isSome = true) :
    (fs.setSiteFiles uid sd files).siteFiles uid sd = some files := by
  have h' : (fs.siteDirs.find? (fun e => e.1 == (uid, sd))).isSome = true := by
    unfold FS.siteFiles at h
    simpa using h
  have hm := find?_map_setEntry fs.siteDirs (uid, sd) files h'
  unfold FS.setSiteFiles FS.siteFiles
  rw [hm]
  rfl

/-- After `createUserWebsiteDir` the directory is present. -/
theorem FS.siteFiles_createUserWebsiteDir (fs : FS) (uid sd : String) :
    ((FileManager.createUserWebsiteDir fs uid sd).siteFiles uid sd).isSome = true := by
  unfold FileManager.createUserWebsiteDir
  cases hfind : (fs.siteDirs.find? (fun e => e.1 == (uid, sd))) with
  | none => simp [hfind, FS.siteFiles, List.find?_cons]
  | some e => simp [FS.siteFiles, hfind]

/-- `createUserWebsiteDir` changes neither the script store nor `cwd`. -/
theorem FS.scriptFiles_createUserWebsiteDir (fs : FS) (uid sd : String) :
    (FileManager.createUserWebsiteDir fs uid sd).scriptFiles = fs.scriptFiles ∧
    (FileManager.createUserWebsiteDir fs uid sd).cwd = fs.cwd := by
  unfold FileManager.createUserWebsiteDir
  split <;> exact ⟨rfl, rfl⟩

/-- The cleared freshly-ensured directory holds no files. -/
theorem clear_create_siteFiles (fs : FS) (uid sd : String) :
    (FileManager.clearWebsiteDir (FileManager.createUserWebsiteDir fs uid sd) uid sd).siteFiles
      uid sd = some [] :=
  FS.siteFiles_setSiteFiles _ uid sd [] (FS.siteFiles_createUserWebsiteDir fs uid sd)

/-- Reduction of `extractScript` when the archive fails to extract. -/
theorem extractScript_eq_error (env : Env) (fs : FS) (uid sd n msg : String)
    (hunzip : env.unzip (resolveScriptPath fs.cwd n) = .error msg) :
    FileManager.extractScript env fs uid sd n =
      (FileManager.clearWebsiteDir (FileManager.createUserWebsiteDir fs uid sd) uid sd,
       .error ("Failed to extract script: " ++ msg)) := by
  unfold FileManager.extractScript
  rw [hunzip]

/-- Reduction of `extractScript` when the archive extracts
successfully. -/
theorem extractScript_eq_ok (env : Env) (fs : FS) (uid sd n : String) (files : List String)
    (hunzip : env.unzip (resolveScriptPath fs.cwd n) = .ok files) :
    FileManager.extractScript env fs uid sd n =
      ((FileManager.clearWebsiteDir (FileManager.createUserWebsiteDir fs uid sd)
          uid sd).setSiteFiles uid sd files,
       .ok ()) := by
  unfold FileManager.extractScript
  rw [hunzip]

/-- A successful extraction leaves the destination directory holding
exactly the archive's file set. -/
theorem extractScript_ok_siteFiles (env : Env) (fs : FS) (uid sd n : String)
    (files : List String)
    (hunzip : env.unzip (resolveScriptPath fs.cwd n) = .ok files) :
    (FileManager.extractScript env fs uid sd n).1.siteFiles uid sd = some files := by
  rw [extractScript_eq_ok env fs uid sd n files hunzip]
  refine FS.siteFiles_setSiteFiles _ uid sd files ?_
  rw [clear_create_siteFiles fs uid sd]
  rfl

/-! ### Branch equations for the route handlers -/

/-- `change-script` when the named template is missing: 404, state
untouched, no side effects. -/
theorem postChangeScript_eq_notfound (env : Env) (s : AppState)
    (callerId websiteId name : String) (w : Website)
    (hw : DatabaseStorage.getWebsite s websiteId = some w)
    (hown : w.userId = callerId) (hname : name ≠ "")
    (hmiss : FileManager.scriptExists s.fs name = false) :
    postChangeScript env s callerId websiteId (some name) =
      (.err 404 "Script not found", s, []) := by
  have h1 : (name == "") = false := by simp [hname]
  have h2 : (w.userId == callerId) = true := by simp [hown]
  simp [postChangeScript, h1, h2, hw, hmiss]

/-- `change-script` when extraction fails: 500 with the generic message,
directory cleared, no database write. -/
theorem postChangeScript_eq_unzipErr (env : Env) (s : AppState)
    (callerId websiteId name msg : String) (w : Website)
    (hw : DatabaseStorage.getWebsite s websiteId = some w)
    (hown : w.userId = callerId) (hname : name ≠ "")
    (hex : FileManager.scriptExists s.fs name = true)
    (hunzip : env.unzip (resolveScriptPath s.fs.cwd name) = .error msg) :
    postChangeScript env s callerId websiteId (some name) =
      (.err 500 "Failed to change script",
       { s with fs := (FileManager.clearWebsiteDir
           (FileManager.createUserWebsiteDir s.fs w.userId w.subdomain) w.userId w.subdomain) },
       [.createDir w.userId w.subdomain, .clearDir w.userId w.subdomain,
        .unzipRun w.userId w.subdomain name]) := by
  have h1 : (name == "") = false := by simp [hname]
  have h2 : (w.userId == callerId) = true := by simp [hown]
  have heq := extractScript_eq_error env s.fs w.userId w.subdomain name msg hunzip
  simp [postChangeScript, h1, h2, hw, hex, heq]

/-- `change-script` when everything succeeds: clear+extract, update the
row's `currentScript`, append the `"script_changed"` audit entry. -/
theorem postChangeScript_eq_ok (env : Env) (s : AppState)
    (callerId websiteId name : String) (files : List String) (w : Website)
    (hw : DatabaseStorage.getWebsite s websiteId = some w)
    (hown : w.userId = callerId) (hname : name ≠ "")
    (hex : FileManager.scriptExists s.fs name = true)
    (hunzip : env.unzip (resolveScriptPath s.fs.cwd name) = .ok files) :
    postChangeScript env s callerId websiteId (some name) =
      (.okScriptChange "Script changed successfully"
         (some (applyUpdate w { currentScript := some (some name) }))
         (getWebsiteUrl w.subdomain),
       { s with
         websites := s.websites.map (fun x =>
           if x.id == websiteId then applyUpdate x { currentScript := some (some name) }
           else x),
         logs := s.logs ++
           [{ websiteId := w.id, action := "script_changed",
              details := .scriptChanged w.currentScript name, createdAt := s.tick }],
         fs := (FileManager.clearWebsiteDir
             (FileManager.createUserWebsiteDir s.fs w.userId w.subdomain)
             w.userId w.subdomain).setSiteFiles w.userId w.subdomain files,
         tick := s.tick + 1 },
       [.createDir w.userId w.subdomain, .clearDir w.userId w.subdomain,
        .unzipRun w.userId w.subdomain name, .dbUpdateWebsite websiteId,
        .dbInsertLog w.id "script_changed"]) := by
  have h1 : (name == "") = false := by simp [hname]
  have h2 : (w.userId == callerId) = true := by simp [hown]
  have hw' : s.websites.find? (fun x => x.id == websiteId) = some w := hw
  have heq := extractScript_eq_ok env s.fs w.userId w.subdomain name files hunzip
  simp [postChangeScript, h1, h2, hw, hex, heq,
    DatabaseStorage.updateWebsite, DatabaseStorage.createWebsiteLog, hw']

/-- `POST /api/websites` when the caller already owns a website: the
quota failure, before any other check or side effect. -/
theorem postWebsites_eq_quota (s : AppState) (callerId : String) (body : CreateBody)
    (mk : Bool) (h : DatabaseStorage.getUserWebsites s callerId ≠ []) :
    postWebsites s callerId body mk =
      (.err 400 "You can only create one website. Please delete your existing website first.",
       s, []) := by
  have h0 : 0 < (DatabaseStorage.getUserWebsites s callerId).length := List.length_pos.mpr h
  simp [postWebsites, h0]

/-- `POST /api/websites` when the subdomain is already taken: the
conflict failure, no side effects. -/
theorem postWebsites_eq_conflict (s : AppState) (callerId : String) (body : CreateBody)
    (mk : Bool) (hq : DatabaseStorage.getUserWebsites s callerId = [])
    (hn : body.name ≠ "") (hs : subdomainOk body.subdomain = true)
    (hc : (DatabaseStorage.getWebsiteBySubdomain s body.subdomain).isSome = true) :
    postWebsites s callerId body mk = (.err 400 "Subdomain already taken", s, []) := by
  have hn' : (body.name == "") = false := by simp [hn]
  simp [postWebsites, hq, hn', hs, hc]

/-- `POST /api/websites` when every check passes and `mkdir` succeeds:
directory created, row persisted, `"created"` audit entry appended. -/
theorem postWebsites_eq_ok (s : AppState) (callerId : String) (body : CreateBody)
    (hq : DatabaseStorage.getUserWebsites s callerId = [])
    (hn : body.name ≠ "") (hs : subdomainOk body.subdomain = true)
    (hc : DatabaseStorage.getWebsiteBySubdomain s body.subdomain = none) :
    postWebsites s callerId body false =
      (.createdWebsite
         { id := genId s.tick, userId := callerId, name := body.name,
           subdomain := body.subdomain, description := body.description,
           currentScript := body.currentScript, isActive := body.isActive.getD true },
       { s with
         websites := s.websites ++
           [{ id := genId s.tick, userId := callerId, name := body.name,
              subdomain := body.subdomain, description := body.description,
              currentScript := body.currentScript, isActive := body.isActive.getD true }],
         logs := s.logs ++
           [{ websiteId := genId s.tick, action := "created",
              details := .created body.name body.subdomain, createdAt := s.tick + 1 }],
         fs := FileManager.createUserWebsiteDir s.fs callerId body.subdomain,
         tick := s.tick + 2 },
       [.createDir callerId body.subdomain,
        .dbInsertWebsite
          { id := genId s.tick, userId := callerId, name := body.name,
            subdomain := body.subdomain, description := body.description,
            currentScript := body.currentScript, isActive := body.isActive.getD true },
        .dbInsertLog (genId s.tick) "created"]) := by
  have hn' : (body.name == "") = false := by simp [hn]
  simp [postWebsites, hq, hn', hs, hc, DatabaseStorage.createWebsiteLog]

/-- `POST /api/websites` with a failing `mkdir`: whatever the earlier
checks decided, the state is untouched and no side effect happens — in
particular no database write. -/
theorem postWebsites_mkdirFails_state (s : AppState) (callerId : String) (body : CreateBody) :
    (postWebsites s callerId body true).2.1 = s ∧
    (postWebsites s callerId body true).2.2 = [] := by
  unfold postWebsites
  split
  · exact ⟨rfl, rfl⟩
  · split
    · exact ⟨rfl, rfl⟩
    · split
      · exact ⟨rfl, rfl⟩
      · split
        · exact ⟨rfl, rfl⟩
        · simp

/-- `PATCH /api/websites/:id` by the owner: update with `userId` and
`subdomain` stripped, then the `"updated"` audit entry. -/
theorem patchWebsite_eq_ok (s : AppState) (callerId websiteId : String)
    (body : WebsiteUpdate) (w : Website)
    (hw : DatabaseStorage.getWebsite s websiteId = some w)
    (hown : w.userId = callerId) :
    patchWebsite s callerId websiteId body =
      (.okWebsite (applyUpdate w { body with userId := none, subdomain := none }),
       { s with
         websites := s.websites.map (fun x =>
           if x.id == websiteId then
             applyUpdate x { body with userId := none, subdomain := none }
           else x),
         logs := s.logs ++
           [{ websiteId := w.id, action := "updated",
              details := .updated { body with userId := none, subdomain := none },
              createdAt := s.tick }],
         tick := s.tick + 1 },
       [.dbUpdateWebsite websiteId, .dbInsertLog w.id "updated"]) := by
  have h2 : (w.userId == callerId) = true := by simp [hown]
  have hw' : s.websites.find? (fun x => x.id == websiteId) = some w := hw
  simp [patchWebsite, hw, h2, DatabaseStorage.updateWebsite,
    DatabaseStorage.createWebsiteLog, hw']

/-- `DELETE /api/websites/:id` by the owner: best-effort subtree
removal, then the row delete cascading the audit entries. -/
theorem deleteWebsiteRoute_eq_ok (s : AppState) (callerId websiteId : String) (w : Website)
    (hw : DatabaseStorage.getWebsite s websiteId = some w)
    (hown : w.userId = callerId) :
    deleteWebsiteRoute s callerId websiteId =
      (.okMessage "Website deleted successfully",
       { s with
         websites := s.websites.filter (fun x => !(x.id == websiteId)),
         logs := s.logs.filter (fun l => !(l.websiteId == websiteId)),
         fs := FileManager.deleteWebsiteDir s.fs callerId w.subdomain },
       [.fsDeleteDir callerId w.subdomain, .dbDeleteWebsite websiteId]) := by
  have h2 : (w.userId == callerId) = true := by simp [hown]
  simp [deleteWebsiteRoute, hw, h2, DatabaseStorage.deleteWebsite]

/-- `DELETE /api/scripts/:id` when the template row exists: remove the
backing file, then the row; nothing about the caller is consulted. -/
theorem deleteScriptRoute_eq_ok (s : AppState) (templateId : String) (t : ScriptTemplate)
    (ht : DatabaseStorage.getScriptTemplate s templateId = some t) :
    deleteScriptRoute s templateId =
      (.okMessage "Script template deleted successfully",
       { s with
         templates := s.templates.filter (fun x => !(x.id == templateId)),
         fs := FileManager.deleteScript s.fs t.fileName },
       [.fsDeleteScript t.fileName, .dbDeleteTemplate templateId]) := by
  simp [deleteScriptRoute, ht, DatabaseStorage.deleteScriptTemplate]


/-- Updating one row by id preserves lookups of that id: the found row
is the updated one. -/
theorem find?_map_applyUpdate (l : List Website) (wid : String) (u : WebsiteUpdate)
    (w : Website) (h : l.find? (fun x => x.id == wid) = some w) :
    (l.map (fun x => if x.id == wid then applyUpdate x u else x)).find?
      (fun x => x.id == wid) = some (applyUpdate w u) := by
  induction l with
  | nil => simp at h
  | cons a t ih =>
    by_cases ha : a.id = wid
    · subst ha
      simp at h
      subst h
      simp [applyUpdate]
    · have hb' : (a.id == wid) = false := by simp [ha]
      have hh : t.find? (fun x => x.id == wid) = some w := by
        rw [List.find?_cons_of_neg] at h
        · exact h
        · simp [hb']
      rw [List.map_cons, if_neg (show ¬ ((a.id == wid) = true) by simp [hb'])]
      rw [List.find?_cons_of_neg]
      · exact ih hh
      · simp [hb']

/-- Folding the normalisation step over components that are not `""`,
`"."` or `".."` just appends them. -/
theorem foldl_normStep_clean (cs : List String) (acc : List String)
    (h : ∀ c ∈ cs, c ≠ "" ∧ c ≠ "." ∧ c ≠ "..") :
    List.foldl normStep acc cs = acc ++ cs := by
  induction cs generalizing acc with
  | nil => simp
  | cons c t ih =>
    have hc := h c (List.mem_cons_self c t)
    have hstep : normStep acc c = acc ++ [c] := by
      unfold normStep
      rw [if_neg (by simp [hc.1, hc.2.1]), if_neg hc.2.2]
    rw [List.foldl_cons, hstep, ih _ (fun x hx => h x (List.mem_cons_of_mem c hx))]
    simp

/-! ### C1 -/

/-- **C1.** For every website and every template file name that does not
exist in the Template Store, the `applyTemplate` operation
(`POST /api/websites/:id/change-script`) fails with NotFound and
performs no mutation: the website's `currentScript` field, its audit
log, and its filesystem subtree are all unchanged, because the
template-existence check runs before the clear/extract/update steps. -/
theorem C1_missing_template_no_mutation (env : Env) (s : AppState)
    (callerId websiteId name : String) (w : Website)
    (hw : DatabaseStorage.getWebsite s websiteId = some w)
    (hown : w.userId = callerId)
    (hname : name ≠ "")
    (hmiss : FileManager.scriptExists s.fs name = false) :
    (postChangeScript env s callerId websiteId (some name)).1 =
      .err 404 "Script not found" ∧
    (postChangeScript env s callerId websiteId (some name)).2.1 = s ∧
    DatabaseStorage.getWebsite (postChangeScript env s callerId websiteId (some name)).2.1
      websiteId = some w ∧
    DatabaseStorage.getWebsiteLogs (postChangeScript env s callerId websiteId (some name)).2.1
      websiteId = DatabaseStorage.getWebsiteLogs s websiteId ∧
    FS.siteFiles (postChangeScript env s callerId websiteId (some name)).2.1.fs
      w.userId w.subdomain = FS.siteFiles s.fs w.userId w.subdomain := by
  have he := postChangeScript_eq_notfound env s callerId websiteId name w hw hown hname hmiss
  rw [he]
  exact ⟨rfl, rfl, hw, rfl, rfl⟩

/-- Witness for C1 at a concrete state and a missing template name. -/
theorem C1_missing_template_no_mutation_witness :
    (postChangeScript exEnvOk exState "u1" "w1" (some "nope.zip")).1 =
      .err 404 "Script not found" ∧
    (postChangeScript exEnvOk exState "u1" "w1" (some "nope.zip")).2.1 = exState :=
  ⟨(C1_missing_template_no_mutation exEnvOk exState "u1" "w1" "nope.zip" exWebsite
      (by decide) (by decide) (by decide) (by decide)).1,
   (C1_missing_template_no_mutation exEnvOk exState "u1" "w1" "nope.zip" exWebsite
      (by decide) (by decide) (by decide) (by decide)).2.1⟩

/-! ### C2 -/

/-- **C2 (counterexample to the claim as stated).** A concrete
`applyTemplate` call whose extraction fails with underlying message
`"boom"` responds 500 with the generic body `"Failed to change
script"`, which does not contain `"boom"`: the response does not carry
the underlying extraction error message. -/
theorem C2_counterexample :
    exEnvBad.unzip (resolveScriptPath exState.fs.cwd "basic.zip") = .error "boom" ∧
    (postChangeScript exEnvBad exState "u1" "w1" (some "basic.zip")).1 =
      .err 500 "Failed to change script" ∧
    containsSub "Failed to change script" "boom" = false :=
  ⟨rfl, by decide, by decide⟩

/-- **C2 (amended).** For every `applyTemplate` call in which archive
extraction fails, the operation returns status 500 with the generic
message `"Failed to change script"` (the underlying extraction error is
only logged, not included in the response), and the website's subtree
is left in a cleared-but-not-repopulated state (cleared, with no
extracted files); the website row and the audit log are unchanged. -/
theorem C2_extraction_failure_cleared_500 (env : Env) (s : AppState)
    (callerId websiteId name msg : String) (w : Website)
    (hw : DatabaseStorage.getWebsite s websiteId = some w)
    (hown : w.userId = callerId)
    (hname : name ≠ "")
    (hex : FileManager.scriptExists s.fs name = true)
    (hunzip : env.unzip (resolveScriptPath s.fs.cwd name) = .error msg) :
    (postChangeScript env s callerId websiteId (some name)).1 =
      .err 500 "Failed to change script" ∧
    FS.siteFiles (postChangeScript env s callerId websiteId (some name)).2.1.fs
      w.userId w.subdomain = some [] ∧
    (postChangeScript env s callerId websiteId (some name)).2.1.websites = s.websites ∧
    (postChangeScript env s callerId websiteId (some name)).2.1.logs = s.logs := by
  have he := postChangeScript_eq_unzipErr env s callerId websiteId name msg w
    hw hown hname hex hunzip
  rw [he]
  exact ⟨rfl, clear_create_siteFiles s.fs w.userId w.subdomain, rfl, rfl⟩

/-- Witness for the amended C2 at a concrete failing extraction. -/
theorem C2_extraction_failure_cleared_500_witness :
    (postChangeScript exEnvBad exState "u1" "w1" (some "basic.zip")).1 =
      .err 500 "Failed to change script" ∧
    FS.siteFiles (postChangeScript exEnvBad exState "u1" "w1" (some "basic.zip")).2.1.fs
      "u1" "alice-site" = some [] :=
  ⟨(C2_extraction_failure_cleared_500 exEnvBad exState "u1" "w1" "basic.zip" "boom"
      exWebsite (by decide) (by decide) (by decide) (by decide) rfl).1,
   (C2_extraction_failure_cleared_500 exEnvBad exState "u1" "w1" "basic.zip" "boom"
      exWebsite (by decide) (by decide) (by decide) (by decide) rfl).2.1⟩

/-! ### C8 -/

/-- **C8.** For every `PATCH /api/websites/:id` request by the owner,
the `userId` and `subdomain` fields of the website are unchanged by the
operation even if values for them appear in the request body: both
fields are stripped server-side before the update is applied. -/
theorem C8_patch_preserves_owner_and_subdomain (s : AppState) (callerId websiteId : String)
    (body : WebsiteUpdate) (w : Website)
    (hw : DatabaseStorage.getWebsite s websiteId = some w)
    (hown : w.userId = callerId) :
    ∃ w', DatabaseStorage.getWebsite (patchWebsite s callerId websiteId body).2.1
        websiteId = some w' ∧
      w'.userId = w.userId ∧ w'.subdomain = w.subdomain := by
  have he := patchWebsite_eq_ok s callerId websiteId body w hw hown
  rw [he]
  refine ⟨applyUpdate w { body with userId := none, subdomain := none }, ?_, rfl, rfl⟩
  exact find?_map_applyUpdate s.websites websiteId _ w hw

/-- Witness for C8: a body that tries to set both `userId` and
`subdomain` changes neither. -/
theorem C8_patch_preserves_owner_and_subdomain_witness :
    ∃ w', DatabaseStorage.getWebsite
        (patchWebsite exState "u1" "w1"
          { userId := some "attacker", subdomain := some "stolen", name := some "New" }).2.1
        "w1" = some w' ∧
      w'.userId = exWebsite.userId ∧ w'.subdomain = exWebsite.subdomain :=
  C8_patch_preserves_owner_and_subdomain exState "u1" "w1"
    { userId := some "attacker", subdomain := some "stolen", name := some "New" }
    exWebsite (by decide) (by decide)

/-! ### C9 -/

/-- **C9.** The change-script endpoint does not confine the template
name to the Template Store directory: there exist `scriptName` values
(containing path separators such as `".."`) for which the path checked
by `scriptExists` and passed to extraction resolves outside the
Template Store directory, because `scriptName` is joined to the store
path without sanitization and then interpolated into the extraction
shell command. -/
theorem C9_script_name_escapes_store (cwd : Path)
    (hclean : ∀ c ∈ cwd, c ≠ "" ∧ c ≠ "." ∧ c ≠ "..") :
    ∃ scriptName : String,
      ".." ∈ splitPath scriptName ∧
      ¬ (scriptsDirPath cwd <+: resolveScriptPath cwd scriptName) ∧
      ∀ userId subdomain : String, ∃ a b : String,
        extractCommand cwd userId subdomain scriptName =
          a ++ renderPath (resolveScriptPath cwd scriptName) ++ b := by
  have hres : resolveScriptPath cwd "../evil.zip" = cwd ++ ["evil.zip"] := by
    have hsplit : splitPath "../evil.zip" = ["..", "evil.zip"] := by decide
    have hcleanall : ∀ c ∈ cwd ++ ["allscripts"], c ≠ "" ∧ c ≠ "." ∧ c ≠ ".." := by
      intro c hcm
      rcases List.mem_append.mp hcm with hcl | hcr
      · exact hclean c hcl
      · simp at hcr
        subst hcr
        exact ⟨by decide, by decide, by decide⟩
    unfold resolveScriptPath scriptsDirPath normalizeComponents
    rw [hsplit, List.foldl_append, foldl_normStep_clean _ _ hcleanall]
    rw [List.nil_append, List.foldl_cons, List.foldl_cons, List.foldl_nil]
    rw [show normStep (cwd ++ ["allscripts"]) ".." = cwd by
      unfold normStep
      rw [if_neg (by decide), if_pos rfl, List.dropLast_concat]]
    unfold normStep
    rw [if_neg (by decide), if_neg (by decide)]
  refine ⟨"../evil.zip", by decide, ?_, ?_⟩
  · rw [hres]
    unfold scriptsDirPath
    intro hpre
    rw [List.prefix_append_right_inj] at hpre
    rcases List.cons_prefix_cons.mp hpre with ⟨h1, _⟩
    exact absurd h1 (by decide)
  · intro userId subdomain
    exact ⟨"cd \"" ++ renderPath (getUserWebsiteDir cwd userId subdomain) ++
      "\" && unzip -o \"", "\"", rfl⟩

/-- Witness for C9 at a concrete working directory. -/
theorem C9_script_name_escapes_store_witness :
    ∃ scriptName : String,
      ".." ∈ splitPath scriptName ∧
      ¬ (scriptsDirPath ["home", "runner", "workspace"] <+:
          resolveScriptPath ["home", "runner", "workspace"] scriptName) ∧
      ∀ userId subdomain : String, ∃ a b : String,
        extractCommand ["home", "runner", "workspace"] userId subdomain scriptName =
          a ++ renderPath (resolveScriptPath ["home", "runner", "workspace"] scriptName) ++ b :=
  C9_script_name_escapes_store ["home", "runner", "workspace"] (by decide)

/-! ### C10 -/

/-- **C10.** Template deletion is not owner-scoped: for every
authenticated user and every existing script template,
`DELETE /api/scripts/:id` succeeds and removes both the database record
and the backing archive file, with no check that the caller uploaded or
owns the template — the handler's outcome is independent of the caller,
and its only precondition is the template's existence. -/
theorem C10_template_delete_not_owner_scoped (s : AppState) (templateId : String)
    (t : ScriptTemplate)
    (ht : DatabaseStorage.getScriptTemplate s templateId = some t) :
    (deleteScriptRoute s templateId).1 = .okMessage "Script template deleted successfully" ∧
    DatabaseStorage.getScriptTemplate (deleteScriptRoute s templateId).2.1 templateId
      = none ∧
    resolveScriptPath s.fs.cwd t.fileName ∉
      (deleteScriptRoute s templateId).2.1.fs.scriptFiles ∧
    ∀ env : Env, ∀ callerA callerB : String,
      runOp env s (.deleteTemplate callerA templateId) =
        runOp env s (.deleteTemplate callerB templateId) := by
  have he := deleteScriptRoute_eq_ok s templateId t ht
  rw [he]
  refine ⟨rfl, ?_, ?_, fun env a b => rfl⟩
  · simp only [DatabaseStorage.getScriptTemplate]
    rw [List.find?_eq_none]
    intro x hx
    have h2 := (List.mem_filter.mp hx).2
    simpa using h2
  · intro hm
    simp [FileManager.deleteScript] at hm

/-- Witness for C10 at a concrete template. -/
theorem C10_template_delete_not_owner_scoped_witness :
    (deleteScriptRoute exState "t1").1 = .okMessage "Script template deleted successfully" ∧
    DatabaseStorage.getScriptTemplate (deleteScriptRoute exState "t1").2.1 "t1" = none ∧
    resolveScriptPath exState.fs.cwd exTemplate.fileName ∉
      (deleteScriptRoute exState "t1").2.1.fs.scriptFiles :=
  ⟨(C10_template_delete_not_owner_scoped exState "t1" exTemplate (by decide)).1,
   (C10_template_delete_not_owner_scoped exState "t1" exTemplate (by decide)).2.1,
   (C10_template_delete_not_owner_scoped exState "t1" exTemplate (by decide)).2.2.1⟩

/-! ### Error-branch equations and success inversions -/

/-- `POST /api/websites` with an empty name (after the quota check):
validation failure. -/
theorem postWebsites_eq_badname (s : AppState) (c : String) (b : CreateBody) (mk : Bool)
    (hq : DatabaseStorage.getUserWebsites s c = []) (hn : b.name = "") :
    postWebsites s c b mk = (.err 400 "Validation error", s, []) := by
  simp [postWebsites, hq, hn]

/-- `POST /api/websites` with an invalid subdomain: validation
failure. -/
theorem postWebsites_eq_badsub (s : AppState) (c : String) (b : CreateBody) (mk : Bool)
    (hq : DatabaseStorage.getUserWebsites s c = []) (hn : b.name ≠ "")
    (hs : subdomainOk b.subdomain = false) :
    postWebsites s c b mk = (.err 400 "Validation error", s, []) := by
  have hn' : (b.name == "") = false := by simp [hn]
  simp [postWebsites, hq, hn', hs]

/-- `POST /api/websites` when `mkdir` throws: 500 before any database
write. -/
theorem postWebsites_eq_mkdirFail (s : AppState) (c : String) (b : CreateBody)
    (hq : DatabaseStorage.getUserWebsites s c = []) (hn : b.name ≠ "")
    (hs : subdomainOk b.subdomain = true)
    (hc : DatabaseStorage.getWebsiteBySubdomain s b.subdomain = none) :
    postWebsites s c b true = (.err 500 "Failed to create website", s, []) := by
  have hn' : (b.name == "") = false := by simp [hn]
  simp [postWebsites, hq, hn', hs, hc]

/-- `PATCH` on a missing website: 404, no change. -/
theorem patchWebsite_eq_notfound (s : AppState) (c wid : String) (b : WebsiteUpdate)
    (h : DatabaseStorage.getWebsite s wid = none) :
    patchWebsite s c wid b = (.err 404 "Website not found", s, []) := by
  simp [patchWebsite, h]

/-- `PATCH` by a non-owner: 403, no change. -/
theorem patchWebsite_eq_forbidden (s : AppState) (c wid : String) (b : WebsiteUpdate)
    (w : Website) (hw : DatabaseStorage.getWebsite s wid = some w)
    (h : (w.userId == c) = false) :
    patchWebsite s c wid b = (.err 403 "Access denied", s, []) := by
  simp [patchWebsite, hw, h]

/-- `DELETE` on a missing website: 404, no change. -/
theorem deleteWebsiteRoute_eq_notfound (s : AppState) (c wid : String)
    (h : DatabaseStorage.getWebsite s wid = none) :
    deleteWebsiteRoute s c wid = (.err 404 "Website not found", s, []) := by
  simp [deleteWebsiteRoute, h]

/-- `DELETE` by a non-owner: 403, no change. -/
theorem deleteWebsiteRoute_eq_forbidden (s : AppState) (c wid : String) (w : Website)
    (hw : DatabaseStorage.getWebsite s wid = some w)
    (h : (w.userId == c) = false) :
    deleteWebsiteRoute s c wid = (.err 403 "Access denied", s, []) := by
  simp [deleteWebsiteRoute, hw, h]

/-- `change-script` with no script name: 400, no change. -/
theorem postChangeScript_eq_noname (env : Env) (s : AppState) (c wid : String) :
    postChangeScript env s c wid none = (.err 400 "Script name is required", s, []) := rfl

/-- `change-script` with an empty script name: 400, no change. -/
theorem postChangeScript_eq_emptyname (env : Env) (s : AppState) (c wid : String) :
    postChangeScript env s c wid (some "") = (.err 400 "Script name is required", s, []) := by
  simp [postChangeScript]

/-- `change-script` on a missing website: 404, no change. -/
theorem postChangeScript_eq_nosite (env : Env) (s : AppState) (c wid name : String)
    (hname : name ≠ "") (h : DatabaseStorage.getWebsite s wid = none) :
    postChangeScript env s c wid (some name) = (.err 404 "Website not found", s, []) := by
  have h1 : (name == "") = false := by simp [hname]
  simp [postChangeScript, h1, h]

/-- `change-script` by a non-owner: 403, no change. -/
theorem postChangeScript_eq_forbidden (env : Env) (s : AppState) (c wid name : String)
    (w : Website) (hname : name ≠ "")
    (hw : DatabaseStorage.getWebsite s wid = some w)
    (h : (w.userId == c) = false) :
    postChangeScript env s c wid (some name) = (.err 403 "Access denied", s, []) := by
  have h1 : (name == "") = false := by simp [hname]
  simp [postChangeScript, h1, hw, h]

/-- `DELETE /api/scripts/:id` on a missing template: 404, no change. -/
theorem deleteScriptRoute_eq_notfound (s : AppState) (tid : String)
    (h : DatabaseStorage.getScriptTemplate s tid = none) :
    deleteScriptRoute s tid = (.err 404 "Script template not found", s, []) := by
  simp [deleteScriptRoute, h]

/-- A successful `POST /api/websites` implies every precondition
passed. -/
theorem postWebsites_status_ok (s : AppState) (c : String) (b : CreateBody) (mk : Bool)
    (h : (postWebsites s c b mk).1.status < 400) :
    DatabaseStorage.getUserWebsites s c = [] ∧ b.name ≠ "" ∧
    subdomainOk b.subdomain = true ∧
    DatabaseStorage.getWebsiteBySubdomain s b.subdomain = none ∧ mk = false := by
  unfold postWebsites at h
  split at h
  · simp [Resp.status] at h
  next h1 =>
    split at h
    next h2 => simp [Resp.status] at h
    next h2 =>
      split at h
      next h3 => simp [Resp.status] at h
      next h3 =>
        split at h
        next h4 => simp [Resp.status] at h
        next h4 =>
          split at h
          next h5 => simp [Resp.status] at h
          next h5 =>
            refine ⟨?_, ?_, ?_, ?_, ?_⟩
            · have := Nat.eq_zero_of_not_pos h1
              exact List.length_eq_zero.mp this
            · simpa using h2
            · simpa using h3
            · simpa [Option.not_isSome_iff_eq_none] using h4
            · simpa using h5

/-- A successful `PATCH` implies the website exists and the caller owns
it. -/
theorem patchWebsite_status_ok (s : AppState) (c wid : String) (b : WebsiteUpdate)
    (h : (patchWebsite s c wid b).1.status < 400) :
    ∃ w, DatabaseStorage.getWebsite s wid = some w ∧ w.userId = c := by
  unfold patchWebsite at h
  split at h
  · simp [Resp.status] at h
  next w hw =>
    split at h
    next hc => simp [Resp.status] at h
    next hc => exact ⟨w, hw, by simpa using hc⟩

/-- A successful `change-script` implies every precondition passed and
the archive extracted. -/
theorem postChangeScript_status_ok (env : Env) (s : AppState) (c wid : String)
    (sn : Option String) (h : (postChangeScript env s c wid sn).1.status < 400) :
    ∃ name w files, sn = some name ∧ name ≠ "" ∧
      DatabaseStorage.getWebsite s wid = some w ∧ w.userId = c ∧
      FileManager.scriptExists s.fs name = true ∧
      env.unzip (resolveScriptPath s.fs.cwd name) = .ok files := by
  unfold postChangeScript at h
  split at h
  · simp [Resp.status] at h
  next name =>
    split at h
    next hne => simp [Resp.status] at h
    next hne =>
      split at h
      · simp [Resp.status] at h
      next w hw =>
        split at h
        next hown => simp [Resp.status] at h
        next hown =>
          split at h
          next hex => simp [Resp.status] at h
          next hex =>
            cases hz : env.unzip (resolveScriptPath s.fs.cwd name) with
            | error m =>
              have he := extractScript_eq_error env s.fs w.userId w.subdomain name m hz
              rw [he] at h
              simp [Resp.status] at h
            | ok files =>
              exact ⟨name, w, files, rfl, by simpa using hne, hw,
                by simpa using hown, by simpa using hex, hz⟩

/-! ### One-website-per-user machinery -/

/-- Mapping an ownership-preserving function over the table preserves
each user's count. -/
theorem length_filter_userId_map (l : List Website) (f : Website → Website) (u : String)
    (hf : ∀ x, (f x).userId = x.userId) :
    ((l.map f).filter (fun w => w.userId == u)).length =
      (l.filter (fun w => w.userId == u)).length := by
  rw [List.filter_map, List.length_map]
  have hfe : ((fun w : Website => w.userId == u) ∘ f) = (fun w : Website => w.userId == u) := by
    funext x
    simp [Function.comp, hf]
  rw [hfe]

/-- `updateWebsite` with an update that does not set `userId` preserves
every user's count. -/
theorem ownedCount_updateWebsite (s : AppState) (id : String) (u : WebsiteUpdate)
    (hu : u.userId = none) (x : String) :
    ownedCount (DatabaseStorage.updateWebsite s id u).2 x = ownedCount s x := by
  unfold DatabaseStorage.updateWebsite
  cases hf : s.websites.find? (fun w => w.id == id) with
  | none => rfl
  | some w =>
    exact length_filter_userId_map s.websites _ x (fun y => by
      by_cases hy : (y.id == id) = true
      · simp [hy, applyUpdate, hu]
      · simp [hy])

/-- Appending one row adds that row's contribution to a filter count. -/
theorem filter_append_single (l : List Website) (W : Website) (p : Website → Bool) :
    ((l ++ [W]).filter p).length =
      (l.filter p).length + (if p W then 1 else 0) := by
  rw [List.filter_append, List.length_append]
  congr 1
  by_cases h : p W
  · simp [h]
  · simp [h]

/-- The caller's empty website list, as a plain filter equation. -/
theorem filter_userId_eq_nil (s : AppState) (c : String)
    (hq : DatabaseStorage.getUserWebsites s c = []) :
    s.websites.filter (fun w => w.userId == c) = [] := by
  unfold DatabaseStorage.getUserWebsites at hq
  exact List.reverse_eq_nil_iff.mp hq

/-- `POST /api/websites` preserves the quota invariant. -/
theorem quotaInv_postWebsites (s : AppState) (c : String) (b : CreateBody) (mk : Bool)
    (h : quotaInv s) : quotaInv (postWebsites s c b mk).2.1 := by
  by_cases hq : DatabaseStorage.getUserWebsites s c = []
  · by_cases hn : b.name = ""
    · rw [postWebsites_eq_badname s c b mk hq hn]
      exact h
    · by_cases hs : subdomainOk b.subdomain = true
      · cases hcs : DatabaseStorage.getWebsiteBySubdomain s b.subdomain with
        | some w =>
          rw [postWebsites_eq_conflict s c b mk hq hn hs (by simp [hcs])]
          exact h
        | none =>
          cases mk with
          | true =>
            rw [postWebsites_eq_mkdirFail s c b hq hn hs hcs]
            exact h
          | false =>
            rw [postWebsites_eq_ok s c b hq hn hs hcs]
            intro u
            simp only [ownedCount]
            rw [filter_append_single]
            show (s.websites.filter (fun w => w.userId == u)).length +
              (if (c == u) = true then 1 else 0) ≤ 1
            by_cases hu : c = u
            · subst hu
              rw [filter_userId_eq_nil s c hq]
              simp
            · rw [if_neg (by simp [hu])]
              simpa using h u
      · rw [postWebsites_eq_badsub s c b mk hq hn (by simpa using hs)]
        exact h
  · rw [postWebsites_eq_quota s c b mk hq]
    exact h

/-- `PATCH /api/websites/:id` preserves the quota invariant. -/
theorem quotaInv_patchWebsite (s : AppState) (c wid : String) (b : WebsiteUpdate)
    (h : quotaInv s) : quotaInv (patchWebsite s c wid b).2.1 := by
  cases hw : DatabaseStorage.getWebsite s wid with
  | none =>
    rw [patchWebsite_eq_notfound s c wid b hw]
    exact h
  | some w =>
    by_cases hown : w.userId = c
    · rw [patchWebsite_eq_ok s c wid b w hw hown]
      intro u
      simp only [ownedCount]
      rw [length_filter_userId_map s.websites _ u (fun y => by
        by_cases hy : (y.id == wid) = true
        · simp [hy, applyUpdate]
        · simp [hy])]
      exact h u
    · rw [patchWebsite_eq_forbidden s c wid b w hw (by simp [hown])]
      exact h

/-- `DELETE /api/websites/:id` preserves the quota invariant. -/
theorem quotaInv_deleteWebsiteRoute (s : AppState) (c wid : String)
    (h : quotaInv s) : quotaInv (deleteWebsiteRoute s c wid).2.1 := by
  cases hw : DatabaseStorage.getWebsite s wid with
  | none =>
    rw [deleteWebsiteRoute_eq_notfound s c wid hw]
    exact h
  | some w =>
    by_cases hown : w.userId = c
    · rw [deleteWebsiteRoute_eq_ok s c wid w hw hown]
      intro u
      simp only [ownedCount]
      exact Nat.le_trans
        (List.Sublist.length_le ((List.filter_sublist s.websites).filter _)) (h u)
    · rw [deleteWebsiteRoute_eq_forbidden s c wid w hw (by simp [hown])]
      exact h

/-- `POST /api/websites/:id/change-script` preserves the quota
invariant. -/
theorem quotaInv_postChangeScript (env : Env) (s : AppState) (c wid : String)
    (sn : Option String) (h : quotaInv s) :
    quotaInv (postChangeScript env s c wid sn).2.1 := by
  cases sn with
  | none =>
    rw [postChangeScript_eq_noname env s c wid]
    exact h
  | some name =>
    by_cases hne : name = ""
    · subst hne
      rw [postChangeScript_eq_emptyname env s c wid]
      exact h
    · cases hw : DatabaseStorage.getWebsite s wid with
      | none =>
        rw [postChangeScript_eq_nosite env s c wid name hne hw]
        exact h
      | some w =>
        by_cases hown : w.userId = c
        · by_cases hex : FileManager.scriptExists s.fs name = true
          · cases hz : env.unzip (resolveScriptPath s.fs.cwd name) with
            | error m =>
              rw [postChangeScript_eq_unzipErr env s c wid name m w hw hown hne hex hz]
              intro u
              exact h u
            | ok files =>
              rw [postChangeScript_eq_ok env s c wid name files w hw hown hne hex hz]
              intro u
              simp only [ownedCount]
              rw [length_filter_userId_map s.websites _ u (fun y => by
                by_cases hy : (y.id == wid) = true
                · simp [hy, applyUpdate]
                · simp [hy])]
              exact h u
          · rw [postChangeScript_eq_notfound env s c wid name w hw hown hne
              (by simpa using hex)]
            exact h
        · rw [postChangeScript_eq_forbidden env s c wid name w hne hw (by simp [hown])]
          exact h

/-- `DELETE /api/scripts/:id` preserves the quota invariant. -/
theorem quotaInv_deleteScriptRoute (s : AppState) (tid : String) (h : quotaInv s) :
    quotaInv (deleteScriptRoute s tid).2.1 := by
  cases ht : DatabaseStorage.getScriptTemplate s tid with
  | none =>
    rw [deleteScriptRoute_eq_notfound s tid ht]
    exact h
  | some t =>
    rw [deleteScriptRoute_eq_ok s tid t ht]
    intro u
    exact h u

/-- Every operation preserves the quota invariant. -/
theorem quotaInv_runOp (env : Env) (s : AppState) (op : Op) (h : quotaInv s) :
    quotaInv (runOp env s op).2.1 := by
  cases op with
  | create c b mk => exact quotaInv_postWebsites s c b mk h
  | update c wid b => exact quotaInv_patchWebsite s c wid b h
  | deleteSite c wid => exact quotaInv_deleteWebsiteRoute s c wid h
  | changeScript c wid sn => exact quotaInv_postChangeScript env s c wid sn h
  | deleteTemplate c tid => exact quotaInv_deleteScriptRoute s tid h

/-- After the owner deletes their only website, a fresh create with the
freed subdomain succeeds. -/
theorem create_after_delete (s : AppState) (callerId websiteId : String) (w : Website)
    (body : CreateBody)
    (hw : DatabaseStorage.getWebsite s websiteId = some w)
    (hown : w.userId = callerId)
    (honly : DatabaseStorage.getUserWebsites s callerId = [w])
    (hsubonly : s.websites.filter (fun x => x.subdomain == w.subdomain) = [w])
    (hbodysub : body.subdomain = w.subdomain)
    (hn : body.name ≠ "") (hs : subdomainOk body.subdomain = true) :
    ∃ w' : Website,
      (postWebsites (deleteWebsiteRoute s callerId websiteId).2.1 callerId body false).1 =
        .createdWebsite w' := by
  have hw' : s.websites.find? (fun x => x.id == websiteId) = some w := hw
  have hwid0 := List.find?_some hw'
  have hwid : (w.id == websiteId) = true := hwid0
  have huser : s.websites.filter (fun x => x.userId == callerId) = [w] := by
    unfold DatabaseStorage.getUserWebsites at honly
    have h2 := congrArg List.reverse honly
    rw [List.reverse_reverse] at h2
    simpa using h2
  rw [deleteWebsiteRoute_eq_ok s callerId websiteId w hw hown]
  have hq' : DatabaseStorage.getUserWebsites
      { s with
        websites := s.websites.filter (fun x => !(x.id == websiteId)),
        logs := s.logs.filter (fun l => !(l.websiteId == websiteId)),
        fs := FileManager.deleteWebsiteDir s.fs callerId w.subdomain } callerId = [] := by
    unfold DatabaseStorage.getUserWebsites
    rw [List.reverse_eq_nil_iff, List.filter_eq_nil_iff]
    intro x hx
    have hx1 := (List.mem_filter.mp hx).1
    have hx2 := (List.mem_filter.mp hx).2
    intro hxc
    have hxw : x ∈ s.websites.filter (fun x => x.userId == callerId) :=
      List.mem_filter.mpr ⟨hx1, hxc⟩
    rw [huser] at hxw
    have hxeq : x = w := by simpa using hxw
    subst hxeq
    rw [hwid] at hx2
    simp at hx2
  have hc' : DatabaseStorage.getWebsiteBySubdomain
      { s with
        websites := s.websites.filter (fun x => !(x.id == websiteId)),
        logs := s.logs.filter (fun l => !(l.websiteId == websiteId)),
        fs := FileManager.deleteWebsiteDir s.fs callerId w.subdomain } body.subdomain
      = none := by
    unfold DatabaseStorage.getWebsiteBySubdomain
    rw [List.find?_eq_none]
    intro x hx
    have hx1 := (List.mem_filter.mp hx).1
    have hx2 := (List.mem_filter.mp hx).2
    intro hxc
    have hxc' : (x.subdomain == w.subdomain) = true := by
      rw [← hbodysub]
      exact hxc
    have hxw : x ∈ s.websites.filter (fun x => x.subdomain == w.subdomain) :=
      List.mem_filter.mpr ⟨hx1, hxc'⟩
    rw [hsubonly] at hxw
    have hxeq : x = w := by simpa using hxw
    subst hxeq
    rw [hwid] at hx2
    simp at hx2
  rw [postWebsites_eq_ok _ callerId body hq' hn hs hc']
  exact ⟨_, rfl⟩

/-! ### C3 -/

/-- **C3.** For every `createWebsite` call that passes all
preconditions, the side effects occur in the order: create the
filesystem subtree, persist the Website row, append an audit entry with
action `"created"`; and if subtree creation fails, the Website row is
never persisted and no audit entry is appended (the operation aborts
before any database write). -/
theorem C3_create_effects_ordered (s : AppState) (callerId : String) (body : CreateBody)
    (hq : DatabaseStorage.getUserWebsites s callerId = [])
    (hn : body.name ≠ "")
    (hs : subdomainOk body.subdomain = true)
    (hc : DatabaseStorage.getWebsiteBySubdomain s body.subdomain = none) :
    (∃ w : Website,
      (postWebsites s callerId body false).1 = .createdWebsite w ∧
      (postWebsites s callerId body false).2.2 =
        [.createDir callerId body.subdomain, .dbInsertWebsite w,
         .dbInsertLog w.id "created"] ∧
      (postWebsites s callerId body false).2.1.websites = s.websites ++ [w] ∧
      ∃ e : WebsiteLog,
        (postWebsites s callerId body false).2.1.logs = s.logs ++ [e] ∧
        e.websiteId = w.id ∧ e.action = "created") ∧
    (∀ (s' : AppState) (callerId' : String) (body' : CreateBody),
      (postWebsites s' callerId' body' true).2.1.websites = s'.websites ∧
      (postWebsites s' callerId' body' true).2.1.logs = s'.logs ∧
      (postWebsites s' callerId' body' true).2.2 = []) := by
  constructor
  · rw [postWebsites_eq_ok s callerId body hq hn hs hc]
    exact ⟨_, rfl, rfl, rfl, _, rfl, rfl, rfl⟩
  · intro s' c' b'
    have hm := postWebsites_mkdirFails_state s' c' b'
    exact ⟨by rw [hm.1], by rw [hm.1], hm.2⟩

/-- Witness for C3 at a concrete passing call. -/
theorem C3_create_effects_ordered_witness :
    (∃ w : Website,
      (postWebsites exState "u2" { name := "Bob Site", subdomain := "bob-site" } false).1 =
        .createdWebsite w ∧
      (postWebsites exState "u2" { name := "Bob Site", subdomain := "bob-site" } false).2.2 =
        [.createDir "u2" "bob-site", .dbInsertWebsite w, .dbInsertLog w.id "created"] ∧
      (postWebsites exState "u2" { name := "Bob Site", subdomain := "bob-site" }
        false).2.1.websites = exState.websites ++ [w] ∧
      ∃ e : WebsiteLog,
        (postWebsites exState "u2" { name := "Bob Site", subdomain := "bob-site" }
          false).2.1.logs = exState.logs ++ [e] ∧
        e.websiteId = w.id ∧ e.action = "created") ∧
    (∀ (s' : AppState) (callerId' : String) (body' : CreateBody),
      (postWebsites s' callerId' body' true).2.1.websites = s'.websites ∧
      (postWebsites s' callerId' body' true).2.1.logs = s'.logs ∧
      (postWebsites s' callerId' body' true).2.2 = []) :=
  C3_create_effects_ordered exState "u2" { name := "Bob Site", subdomain := "bob-site" }
    (by decide) (by decide) (by decide) (by decide)

/-! ### C4 -/

/-- **C4.** For every user, the number of websites they own never
exceeds 1: a `createWebsite` call by a user who already owns a website
fails with the QuotaExceeded message and creates nothing; after that
user deletes their (only) website, a subsequent `createWebsite` call
succeeds; and every operation preserves the at-most-one invariant. -/
theorem C4_at_most_one_website_per_user :
    (∀ (s : AppState) (callerId : String) (body : CreateBody) (mk : Bool),
      DatabaseStorage.getUserWebsites s callerId ≠ [] →
      postWebsites s callerId body mk =
        (.err 400
          "You can only create one website. Please delete your existing website first.",
         s, [])) ∧
    (∀ (s : AppState) (callerId websiteId : String) (w : Website) (body : CreateBody),
      DatabaseStorage.getWebsite s websiteId = some w →
      w.userId = callerId →
      DatabaseStorage.getUserWebsites s callerId = [w] →
      s.websites.filter (fun x => x.subdomain == w.subdomain) = [w] →
      body.subdomain = w.subdomain →
      body.name ≠ "" →
      subdomainOk body.subdomain = true →
      ∃ w', (postWebsites (deleteWebsiteRoute s callerId websiteId).2.1 callerId body
        false).1 = .createdWebsite w') ∧
    (∀ (env : Env) (s : AppState) (op : Op), quotaInv s → quotaInv (runOp env s op).2.1) :=
  ⟨postWebsites_eq_quota, create_after_delete, quotaInv_runOp⟩

/-- Witness for C4: the quota refusal, the delete-then-recreate
success, and invariant preservation, each at concrete inputs. -/
theorem C4_at_most_one_website_per_user_witness :
    postWebsites exState "u1" { name := "X", subdomain := "x-site" } false =
      (.err 400
        "You can only create one website. Please delete your existing website first.",
       exState, []) ∧
    (∃ w', (postWebsites (deleteWebsiteRoute exState "u1" "w1").2.1 "u1"
        { name := "Alice Again", subdomain := "alice-site" } false).1 =
      .createdWebsite w') ∧
    quotaInv (runOp exEnvOk exState
      (.create "u2" { name := "Bob Site", subdomain := "bob-site" } false)).2.1 :=
  ⟨C4_at_most_one_website_per_user.1 exState "u1" { name := "X", subdomain := "x-site" }
     false (by decide),
   C4_at_most_one_website_per_user.2.1 exState "u1" "w1" exWebsite
     { name := "Alice Again", subdomain := "alice-site" } (by decide) (by decide)
     (by decide) (by decide) (by decide) (by decide) (by decide),
   C4_at_most_one_website_per_user.2.2 exEnvOk exState
     (.create "u2" { name := "Bob Site", subdomain := "bob-site" } false)
     (fun u => List.length_filter_le _ _)⟩

/-! ### C5 -/

/-- **C5 (counterexample to the claim as stated).** A second
same-subdomain `createWebsite` call by the same user fails with the
QuotaExceeded message, not with the Conflict message: the claim's
"second call fails with Conflict" does not hold for every pair of
calls. -/
theorem C5_counterexample :
    (postWebsites exState "u1" { name := "Second", subdomain := "alice-site" } false).1 =
      .err 400 "You can only create one website. Please delete your existing website first." ∧
    (postWebsites exState "u1" { name := "Second", subdomain := "alice-site" } false).1 ≠
      .err 400 "Subdomain already taken" :=
  ⟨by decide, by decide⟩

/-- **C5 (amended).** Subdomain uniqueness is global across all users:
whenever some website already holds a subdomain, a `createWebsite` call
for that subdomain by any caller who owns no website (and passes
validation) fails with Conflict and persists no Website row. -/
theorem C5_global_subdomain_conflict (s : AppState) (callerId : String)
    (body : CreateBody) (mk : Bool) (w : Website)
    (hmem : w ∈ s.websites) (hsub : w.subdomain = body.subdomain)
    (hq : DatabaseStorage.getUserWebsites s callerId = [])
    (hn : body.name ≠ "") (hs : subdomainOk body.subdomain = true) :
    postWebsites s callerId body mk = (.err 400 "Subdomain already taken", s, []) :=
  postWebsites_eq_conflict s callerId body mk hq hn hs
    (List.find?_isSome.mpr ⟨w, hmem, by simp [hsub]⟩)

/-- Witness for the amended C5: a different user hits the conflict. -/
theorem C5_global_subdomain_conflict_witness :
    postWebsites exState "u2" { name := "Second", subdomain := "alice-site" } false =
      (.err 400 "Subdomain already taken", exState, []) :=
  C5_global_subdomain_conflict exState "u2" { name := "Second", subdomain := "alice-site" }
    false exWebsite (by decide) (by decide) (by decide) (by decide) (by decide)

/-! ### C7 -/

/-- The clear-then-extract pipeline leaves exactly the archive's file
set in the directory. -/
theorem siteFiles_clear_create_set (fs : FS) (uid sd : String) (files : List String) :
    ((FileManager.clearWebsiteDir (FileManager.createUserWebsiteDir fs uid sd)
        uid sd).setSiteFiles uid sd files).siteFiles uid sd = some files := by
  refine FS.siteFiles_setSiteFiles _ uid sd files ?_
  rw [clear_create_siteFiles]
  rfl

/-- **C7.** `applyTemplate` is idempotent in its end state on success:
for every website and every template archive, applying the same
template twice in succession leaves the website subtree's file set
identical to applying it once (each application clears the subtree
before extracting). -/
theorem C7_apply_template_idempotent (env : Env) (s : AppState)
    (callerId websiteId name : String) (files : List String) (w : Website)
    (hw : DatabaseStorage.getWebsite s websiteId = some w)
    (hown : w.userId = callerId) (hname : name ≠ "")
    (hex : FileManager.scriptExists s.fs name = true)
    (hunzip : env.unzip (resolveScriptPath s.fs.cwd name) = .ok files) :
    (postChangeScript env s callerId websiteId (some name)).1.status = 200 ∧
    (postChangeScript env (postChangeScript env s callerId websiteId (some name)).2.1
        callerId websiteId (some name)).1.status = 200 ∧
    FS.siteFiles (postChangeScript env (postChangeScript env s callerId websiteId
        (some name)).2.1 callerId websiteId (some name)).2.1.fs w.userId w.subdomain =
      FS.siteFiles (postChangeScript env s callerId websiteId (some name)).2.1.fs
        w.userId w.subdomain ∧
    FS.siteFiles (postChangeScript env s callerId websiteId (some name)).2.1.fs
      w.userId w.subdomain = some files := by
  have he1 := postChangeScript_eq_ok env s callerId websiteId name files w
    hw hown hname hex hunzip
  have hw1 : DatabaseStorage.getWebsite
      (postChangeScript env s callerId websiteId (some name)).2.1 websiteId =
      some (applyUpdate w { currentScript := some (some name) }) := by
    rw [he1]
    exact find?_map_applyUpdate s.websites websiteId _ w hw
  have hown1 : (applyUpdate w { currentScript := some (some name) }).userId = callerId :=
    hown
  have hcc := FS.scriptFiles_createUserWebsiteDir s.fs w.userId w.subdomain
  have hex1 : FileManager.scriptExists
      (postChangeScript env s callerId websiteId (some name)).2.1.fs name = true := by
    rw [he1]
    unfold FileManager.scriptExists at hex ⊢
    simp only [FS.setSiteFiles, FileManager.clearWebsiteDir]
    rw [hcc.1, hcc.2]
    exact hex
  have hunzip1 : env.unzip (resolveScriptPath
      (postChangeScript env s callerId websiteId (some name)).2.1.fs.cwd name) =
      Except.ok files := by
    rw [he1]
    simp only [FS.setSiteFiles, FileManager.clearWebsiteDir]
    rw [hcc.2]
    exact hunzip
  have he2 := postChangeScript_eq_ok env
    (postChangeScript env s callerId websiteId (some name)).2.1 callerId websiteId name
    files (applyUpdate w { currentScript := some (some name) }) hw1 hown1 hname hex1 hunzip1
  have l1 : FS.siteFiles (postChangeScript env s callerId websiteId (some name)).2.1.fs
      w.userId w.subdomain = some files := by
    rw [he1]
    exact siteFiles_clear_create_set s.fs w.userId w.subdomain files
  have l2 : FS.siteFiles (postChangeScript env (postChangeScript env s callerId websiteId
      (some name)).2.1 callerId websiteId (some name)).2.1.fs w.userId w.subdomain =
      some files := by
    rw [he2]
    exact siteFiles_clear_create_set _ w.userId w.subdomain files
  refine ⟨?_, ?_, l2.trans l1.symm, l1⟩
  · rw [he1]
    rfl
  · rw [he2]
    rfl

/-- Witness for C7 at a concrete state and archive. -/
theorem C7_apply_template_idempotent_witness :
    (postChangeScript exEnvOk exState "u1" "w1" (some "basic.zip")).1.status = 200 ∧
    (postChangeScript exEnvOk (postChangeScript exEnvOk exState "u1" "w1"
        (some "basic.zip")).2.1 "u1" "w1" (some "basic.zip")).1.status = 200 ∧
    FS.siteFiles (postChangeScript exEnvOk (postChangeScript exEnvOk exState "u1" "w1"
        (some "basic.zip")).2.1 "u1" "w1" (some "basic.zip")).2.1.fs "u1" "alice-site" =
      FS.siteFiles (postChangeScript exEnvOk exState "u1" "w1"
        (some "basic.zip")).2.1.fs "u1" "alice-site" ∧
    FS.siteFiles (postChangeScript exEnvOk exState "u1" "w1"
      (some "basic.zip")).2.1.fs "u1" "alice-site" = some ["index.html"] :=
  C7_apply_template_idempotent exEnvOk exState "u1" "w1" "basic.zip" ["index.html"]
    exWebsite (by decide) (by decide) (by decide) (by decide) rfl

/-! ### Audit-log machinery -/

/-- Filtering after appending one row: the new row lands at the head of
the newest-first view when it matches. -/
theorem logsFilter_append (logs : List WebsiteLog) (e : WebsiteLog) (wid : String) :
    ((logs ++ [e]).filter (fun l => l.websiteId == wid)).reverse =
      (if (e.websiteId == wid) = true then [e] else []) ++
        (logs.filter (fun l => l.websiteId == wid)).reverse := by
  rw [List.filter_append, List.reverse_append]
  congr 1
  by_cases h : (e.websiteId == wid) = true
  · simp [h]
  · simp [h]

/-- Removing another website's rows does not change this website's
filtered log. -/
theorem filter_logs_other (logs : List WebsiteLog) (wid d : String) (hne : d ≠ wid) :
    (logs.filter (fun l => !(l.websiteId == d))).filter (fun l => l.websiteId == wid) =
      logs.filter (fun l => l.websiteId == wid) := by
  rw [List.filter_filter]
  apply List.filter_congr
  intro x _
  by_cases hx : x.websiteId = wid
  · have hd : (wid == d) = false := by simp [Ne.symm hne]
    simp [hx, hd]
  · simp [hx]

/-- `GET /api/websites/:id/logs` by the owner returns the newest-first
log view. -/
theorem getLogsRoute_eq_ok (s : AppState) (c wid : String) (w : Website)
    (hw : DatabaseStorage.getWebsite s wid = some w) (hown : w.userId = c) :
    getLogsRoute s c wid = .okLogs (DatabaseStorage.getWebsiteLogs s wid) := by
  have h2 : (w.userId == c) = true := by simp [hown]
  simp [getLogsRoute, hw, h2]

/-- In a well-formed state the newest-first view is sorted by strictly
decreasing `createdAt`. -/
theorem getWebsiteLogs_sorted (s : AppState) (wid : String)
    (h : s.logs.Pairwise (fun a b => a.createdAt < b.createdAt)) :
    (DatabaseStorage.getWebsiteLogs s wid).Pairwise
      (fun a b => b.createdAt < a.createdAt) := by
  unfold DatabaseStorage.getWebsiteLogs
  rw [List.pairwise_reverse]
  exact List.Pairwise.sublist (List.filter_sublist _) h

/-- Each successful mutating operation appends exactly one audit entry
for its target website, at the head of the newest-first view. -/
theorem mut_op_appends_one (env : Env) (s : AppState) (op : Op) (wid : String)
    (hm : op.isMut = true) (ht : Op.targetId op s = some wid)
    (hst : (runOp env s op).1.status < 400) :
    ∃ e : WebsiteLog, e.websiteId = wid ∧
      DatabaseStorage.getWebsiteLogs (runOp env s op).2.1 wid =
        e :: DatabaseStorage.getWebsiteLogs s wid := by
  cases op with
  | deleteSite c i => simp [Op.isMut] at hm
  | deleteTemplate c i => simp [Op.isMut] at hm
  | create c b mk =>
    obtain ⟨hq, hn, hs, hc, hmk⟩ := postWebsites_status_ok s c b mk hst
    subst hmk
    have hwid : wid = genId s.tick := by
      simp [Op.targetId] at ht
      exact ht.symm
    subst hwid
    simp only [runOp] at hst ⊢
    have hlogs : (postWebsites s c b false).2.1.logs = s.logs ++
        [{ websiteId := genId s.tick, action := "created",
           details := .created b.name b.subdomain, createdAt := s.tick + 1 }] := by
      rw [postWebsites_eq_ok s c b hq hn hs hc]
    refine ⟨{ websiteId := genId s.tick, action := "created",
              details := .created b.name b.subdomain, createdAt := s.tick + 1 }, rfl, ?_⟩
    unfold DatabaseStorage.getWebsiteLogs
    rw [hlogs, logsFilter_append]
    simp
  | update c i b =>
    obtain ⟨w, hw, hown⟩ := patchWebsite_status_ok s c i b hst
    have hwid : wid = i := by
      simp [Op.targetId] at ht
      exact ht.symm
    subst hwid
    simp only [runOp] at hst ⊢
    have hw' : s.websites.find? (fun x => x.id == wid) = some w := hw
    have hwidw0 := List.find?_some hw'
    have hwidw : w.id = wid := by simpa using hwidw0
    have hlogs : (patchWebsite s c wid b).2.1.logs = s.logs ++
        [{ websiteId := w.id, action := "updated",
           details := .updated { b with userId := none, subdomain := none },
           createdAt := s.tick }] := by
      rw [patchWebsite_eq_ok s c wid b w hw hown]
    refine ⟨{ websiteId := w.id, action := "updated",
              details := .updated { b with userId := none, subdomain := none },
              createdAt := s.tick }, hwidw, ?_⟩
    unfold DatabaseStorage.getWebsiteLogs
    rw [hlogs, logsFilter_append]
    simp [hwidw]
  | changeScript c i sn =>
    obtain ⟨name, w, files, hsn, hne, hw, hown, hex, hz⟩ :=
      postChangeScript_status_ok env s c i sn hst
    subst hsn
    have hwid : wid = i := by
      simp [Op.targetId] at ht
      exact ht.symm
    subst hwid
    simp only [runOp] at hst ⊢
    have hw' : s.websites.find? (fun x => x.id == wid) = some w := hw
    have hwidw0 := List.find?_some hw'
    have hwidw : w.id = wid := by simpa using hwidw0
    have hlogs : (postChangeScript env s c wid (some name)).2.1.logs = s.logs ++
        [{ websiteId := w.id, action := "script_changed",
           details := .scriptChanged w.currentScript name, createdAt := s.tick }] := by
      rw [postChangeScript_eq_ok env s c wid name files w hw hown hne hex hz]
    refine ⟨{ websiteId := w.id, action := "script_changed",
              details := .scriptChanged w.currentScript name,
              createdAt := s.tick }, hwidw, ?_⟩
    unfold DatabaseStorage.getWebsiteLogs
    rw [hlogs, logsFilter_append]
    simp [hwidw]

/-- How one request can change the log table: not at all, by appending
one fresh-stamped row, or — only for a website deletion — by removing
exactly the deleted website's rows. -/
theorem runOp_logs_shape (env : Env) (s : AppState) (op : Op) :
    ((runOp env s op).2.1.logs = s.logs ∧ (runOp env s op).2.1.tick = s.tick) ∨
    (∃ e : WebsiteLog, (runOp env s op).2.1.logs = s.logs ++ [e] ∧
      s.tick ≤ e.createdAt ∧ e.createdAt < (runOp env s op).2.1.tick) ∨
    (∃ d : String, (runOp env s op).2.1.logs =
        s.logs.filter (fun l => !(l.websiteId == d)) ∧
      (runOp env s op).2.1.tick = s.tick ∧
      DatabaseStorage.getWebsite (runOp env s op).2.1 d = none) := by
  cases op with
  | create c b mk =>
    simp only [runOp]
    by_cases hq : DatabaseStorage.getUserWebsites s c = []
    · by_cases hn : b.name = ""
      · rw [postWebsites_eq_badname s c b mk hq hn]
        exact Or.inl ⟨rfl, rfl⟩
      · by_cases hs : subdomainOk b.subdomain = true
        · cases hcs : DatabaseStorage.getWebsiteBySubdomain s b.subdomain with
          | some w =>
            rw [postWebsites_eq_conflict s c b mk hq hn hs (by simp [hcs])]
            exact Or.inl ⟨rfl, rfl⟩
          | none =>
            cases mk with
            | true =>
              rw [postWebsites_eq_mkdirFail s c b hq hn hs hcs]
              exact Or.inl ⟨rfl, rfl⟩
            | false =>
              rw [postWebsites_eq_ok s c b hq hn hs hcs]
              exact Or.inr (Or.inl ⟨_, rfl, Nat.le_succ _, Nat.lt_succ_self _⟩)
        · rw [postWebsites_eq_badsub s c b mk hq hn (by simpa using hs)]
          exact Or.inl ⟨rfl, rfl⟩
    · rw [postWebsites_eq_quota s c b mk hq]
      exact Or.inl ⟨rfl, rfl⟩
  | update c i b =>
    simp only [runOp]
    cases hw : DatabaseStorage.getWebsite s i with
    | none =>
      rw [patchWebsite_eq_notfound s c i b hw]
      exact Or.inl ⟨rfl, rfl⟩
    | some w =>
      by_cases hown : w.userId = c
      · rw [patchWebsite_eq_ok s c i b w hw hown]
        exact Or.inr (Or.inl ⟨_, rfl, Nat.le_refl _, Nat.lt_succ_self _⟩)
      · rw [patchWebsite_eq_forbidden s c i b w hw (by simp [hown])]
        exact Or.inl ⟨rfl, rfl⟩
  | deleteSite c i =>
    simp only [runOp]
    cases hw : DatabaseStorage.getWebsite s i with
    | none =>
      rw [deleteWebsiteRoute_eq_notfound s c i hw]
      exact Or.inl ⟨rfl, rfl⟩
    | some w =>
      by_cases hown : w.userId = c
      · rw [deleteWebsiteRoute_eq_ok s c i w hw hown]
        refine Or.inr (Or.inr ⟨i, rfl, rfl, ?_⟩)
        unfold DatabaseStorage.getWebsite
        rw [List.find?_eq_none]
        intro x hx
        have h2 := (List.mem_filter.mp hx).2
        simpa using h2
      · rw [deleteWebsiteRoute_eq_forbidden s c i w hw (by simp [hown])]
        exact Or.inl ⟨rfl, rfl⟩
  | changeScript c i sn =>
    simp only [runOp]
    cases sn with
    | none =>
      rw [postChangeScript_eq_noname env s c i]
      exact Or.inl ⟨rfl, rfl⟩
    | some name =>
      by_cases hne : name = ""
      · subst hne
        rw [postChangeScript_eq_emptyname env s c i]
        exact Or.inl ⟨rfl, rfl⟩
      · cases hw : DatabaseStorage.getWebsite s i with
        | none =>
          rw [postChangeScript_eq_nosite env s c i name hne hw]
          exact Or.inl ⟨rfl, rfl⟩
        | some w =>
          by_cases hown : w.userId = c
          · by_cases hex : FileManager.scriptExists s.fs name = true
            · cases hz : env.unzip (resolveScriptPath s.fs.cwd name) with
              | error m =>
                rw [postChangeScript_eq_unzipErr env s c i name m w hw hown hne hex hz]
                exact Or.inl ⟨rfl, rfl⟩
              | ok files =>
                rw [postChangeScript_eq_ok env s c i name files w hw hown hne hex hz]
                exact Or.inr (Or.inl ⟨_, rfl, Nat.le_refl _, Nat.lt_succ_self _⟩)
            · rw [postChangeScript_eq_notfound env s c i name w hw hown hne
                (by simpa using hex)]
              exact Or.inl ⟨rfl, rfl⟩
          · rw [postChangeScript_eq_forbidden env s c i name w hne hw (by simp [hown])]
            exact Or.inl ⟨rfl, rfl⟩
  | deleteTemplate c i =>
    simp only [runOp]
    cases ht : DatabaseStorage.getScriptTemplate s i with
    | none =>
      rw [deleteScriptRoute_eq_notfound s i ht]
      exact Or.inl ⟨rfl, rfl⟩
    | some t =>
      rw [deleteScriptRoute_eq_ok s i t ht]
      exact Or.inl ⟨rfl, rfl⟩

/-- Every operation preserves well-formedness of the log table. -/
theorem logsWF_runOp (env : Env) (s : AppState) (op : Op) (h : logsWF s) :
    logsWF (runOp env s op).2.1 := by
  rcases runOp_logs_shape env s op with ⟨h1, h2⟩ | ⟨e, he, he1, he2⟩ | ⟨d, hd, hdt, _⟩
  · constructor
    · rw [h1]
      exact h.1
    · intro l hl
      rw [h1] at hl
      rw [h2]
      exact h.2 l hl
  · constructor
    · rw [he, List.pairwise_append]
      refine ⟨h.1, List.pairwise_singleton _ _, ?_⟩
      intro a ha b hb
      simp at hb
      subst hb
      exact Nat.lt_of_lt_of_le (h.2 a ha) he1
    · intro l hl
      rw [he] at hl
      rcases List.mem_append.mp hl with hm | hm
      · exact Nat.lt_trans (Nat.lt_of_lt_of_le (h.2 l hm) he1) he2
      · simp at hm
        subst hm
        exact he2
  · constructor
    · rw [hd]
      exact List.Pairwise.sublist (List.filter_sublist _) h.1
    · intro l hl
      rw [hd] at hl
      rw [hdt]
      exact h.2 l (List.mem_filter.mp hl).1

/-- While a website still exists, its previously returned audit entries
are preserved unchanged (the newest-first view only grows at the
head). -/
theorem logs_preserved_runOp (env : Env) (s : AppState) (op : Op) (wid : String)
    (hafter : (DatabaseStorage.getWebsite (runOp env s op).2.1 wid).isSome = true) :
    DatabaseStorage.getWebsiteLogs s wid <:+
      DatabaseStorage.getWebsiteLogs (runOp env s op).2.1 wid := by
  rcases runOp_logs_shape env s op with ⟨h1, _⟩ | ⟨e, he, _, _⟩ | ⟨d, hd, _, hnone⟩
  · unfold DatabaseStorage.getWebsiteLogs
    rw [h1]
  · unfold DatabaseStorage.getWebsiteLogs
    rw [he, logsFilter_append]
    exact List.suffix_append _ _
  · by_cases hdw : d = wid
    · subst hdw
      rw [hnone] at hafter
      simp at hafter
    · unfold DatabaseStorage.getWebsiteLogs
      rw [hd, filter_logs_other s.logs wid d hdw]

/-- Running `N` successful mutating operations against one website adds
exactly `N` audit entries for it. -/
theorem runList_log_count (env : Env) (wid : String) (ops : List Op) (s : AppState)
    (hall : allMutSucceed env wid s ops) :
    (DatabaseStorage.getWebsiteLogs (runList env s ops) wid).length =
      ops.length + (DatabaseStorage.getWebsiteLogs s wid).length := by
  induction ops generalizing s with
  | nil => simp [runList]
  | cons op rest ih =>
    simp only [allMutSucceed] at hall
    obtain ⟨hm, ht, hst, hrest⟩ := hall
    obtain ⟨e, _, heq⟩ := mut_op_appends_one env s op wid hm ht hst
    show (DatabaseStorage.getWebsiteLogs (runList env (runOp env s op).2.1 rest)
      wid).length = _
    rw [ih _ hrest, heq]
    simp [List.length_cons]
    omega

/-! ### C6 -/

/-- **C6.** For every website, after N successful mutating operations
(create, update, script change) its audit log contains exactly N
entries; the logs endpoint returns them in reverse chronological order
(newest first); and audit entries are never updated or deleted while
the website exists: each successful mutating operation prepends exactly
one entry to the newest-first view, a run of N successful mutating
operations starting from an empty log leaves exactly N entries, any
operation after which the website still exists preserves the existing
entries as a suffix of the view, the owner's logs endpoint returns the
view sorted by strictly decreasing creation time, and every operation
preserves the timestamp well-formedness this relies on. -/
theorem C6_audit_log_append_only_newest_first :
    (∀ (env : Env) (s : AppState) (op : Op) (wid : String),
      op.isMut = true → Op.targetId op s = some wid →
      (runOp env s op).1.status < 400 →
      ∃ e : WebsiteLog, e.websiteId = wid ∧
        DatabaseStorage.getWebsiteLogs (runOp env s op).2.1 wid =
          e :: DatabaseStorage.getWebsiteLogs s wid) ∧
    (∀ (env : Env) (wid : String) (ops : List Op) (s : AppState),
      allMutSucceed env wid s ops →
      DatabaseStorage.getWebsiteLogs s wid = [] →
      (DatabaseStorage.getWebsiteLogs (runList env s ops) wid).length = ops.length) ∧
    (∀ (env : Env) (s : AppState) (op : Op) (wid : String),
      (DatabaseStorage.getWebsite (runOp env s op).2.1 wid).isSome = true →
      DatabaseStorage.getWebsiteLogs s wid <:+
        DatabaseStorage.getWebsiteLogs (runOp env s op).2.1 wid) ∧
    (∀ (s : AppState) (c wid : String) (w : Website),
      logsWF s → DatabaseStorage.getWebsite s wid = some w → w.userId = c →
      getLogsRoute s c wid = .okLogs (DatabaseStorage.getWebsiteLogs s wid) ∧
      (DatabaseStorage.getWebsiteLogs s wid).Pairwise
        (fun a b => b.createdAt < a.createdAt)) ∧
    (∀ (env : Env) (s : AppState) (op : Op), logsWF s → logsWF (runOp env s op).2.1) :=
  ⟨mut_op_appends_one,
   fun env wid ops s hall h0 => by
     rw [runList_log_count env wid ops s hall, h0]
     simp,
   logs_preserved_runOp,
   fun s c wid w hwf hw hown =>
     ⟨getLogsRoute_eq_ok s c wid w hw hown, getWebsiteLogs_sorted s wid hwf.1⟩,
   logsWF_runOp⟩

/-- Witness for C6: each conjunct at concrete inputs. -/
theorem C6_audit_log_append_only_newest_first_witness :
    (∃ e : WebsiteLog, e.websiteId = "w1" ∧
      DatabaseStorage.getWebsiteLogs
        (runOp exEnvOk exState (.update "u1" "w1" { name := some "Renamed" })).2.1 "w1" =
        e :: DatabaseStorage.getWebsiteLogs exState "w1") ∧
    (DatabaseStorage.getWebsiteLogs
      (runList exEnvOk exState [.update "u1" "w1" { name := some "Renamed" },
        .changeScript "u1" "w1" (some "basic.zip")]) "w1").length = 2 ∧
    (DatabaseStorage.getWebsiteLogs exState "w1" <:+
      DatabaseStorage.getWebsiteLogs
        (runOp exEnvOk exState (.deleteTemplate "u1" "t1")).2.1 "w1") ∧
    (getLogsRoute exState "u1" "w1" =
      .okLogs (DatabaseStorage.getWebsiteLogs exState "w1") ∧
     (DatabaseStorage.getWebsiteLogs exState "w1").Pairwise
       (fun a b => b.createdAt < a.createdAt)) ∧
    logsWF (runOp exEnvOk exState (.update "u1" "w1" { name := some "Renamed" })).2.1 :=
  ⟨C6_audit_log_append_only_newest_first.1 exEnvOk exState
     (.update "u1" "w1" { name := some "Renamed" }) "w1" (by decide) (by decide)
     (by decide),
   C6_audit_log_append_only_newest_first.2.1 exEnvOk "w1"
     [.update "u1" "w1" { name := some "Renamed" },
      .changeScript "u1" "w1" (some "basic.zip")] exState
     ⟨by decide, by decide, by decide, by decide, by decide, by decide, trivial⟩
     (by decide),
   C6_audit_log_append_only_newest_first.2.2.1 exEnvOk exState
     (.deleteTemplate "u1" "t1") "w1" (by decide),
   C6_audit_log_append_only_newest_first.2.2.2.1 exState "u1" "w1" exWebsite
     ⟨List.Pairwise.nil, fun l hl => absurd hl (List.not_mem_nil l)⟩ (by decide)
     (by decide),
   C6_audit_log_append_only_newest_first.2.2.2.2 exEnvOk exState
     (.update "u1" "w1" { name := some "Renamed" })
     ⟨List.Pairwise.nil, fun l hl => absurd hl (List.not_mem_nil l)⟩⟩

end PrimeWebs
